import Mathlib

/- Shallow embedding of src/lib/h265dec.cpp (ceyusa/videoparser), the
GStreamer-to-Vulkan H.265 decoder bridge.  The embedding covers the parameter
set change-detection cache (sps_cmp / pps_cmp / vps_cmp and
gst_h265_dec_update_picture_parameters), the descriptor converter (fill_sps /
fill_pps / fill_vps), the per-picture bitstream assembler (vk_pic_new /
gst_h265_dec_decode_slice) and the reference-set resolution loops of
gst_h265_dec_start_picture.  GLib integer fields are modelled as Nat (signed
ones as Int); one-bit Vulkan bitfields are modelled as Nat reduced mod 2;
explicit C casts become explicit mod / wrap operations.  All structures are
zero-initialised by default, mirroring g_new0 / GObject allocation and C
compound literals. -/

/-! ## Decoded pictures and the reference table -/

/-- A decoded picture as seen by gst_h265_dec_start_picture: the fields of
GstH265Picture it reads (ref, long_term, pic_order_cnt) plus the backend
handle VkPicIf* carried by the picture's VkPic user data (other_frame->pic),
modelled as a Nat identifier. -/
structure GstH265Picture where
  pic_order_cnt : Int := 0
  ref : Bool := false
  long_term : Bool := false
  pic : Nat := 0
  deriving DecidableEq

/-- One slot of the flat reference table built by gst_h265_dec_start_picture
(src/lib/h265dec.cpp:664-688): the entries RefPics[i], PicOrderCntVal[i] and
IsLongTerm[i] written at index i = num_ref_pic; the slot index is the position
in the list. -/
structure RefSlot where
  pic : Nat := 0
  poc : Int := 0
  is_long_term : Bool := false
  deriving DecidableEq

/-- Modelled from the spec: the capacity bound G_N_ELEMENTS (h265->RefPics)
used by the overflow check in gst_h265_dec_start_picture; the
VkParserHevcPictureData definition lives in a header that is not part of
src/, and the spec fixes the maximum at 16 slots. -/
def maxRefPics : Nat := 16

/-- The slot written for one qualifying DPB picture: handle, POC and
long-term flag (src/lib/h265dec.cpp:683-685). -/
def mkRefSlot (p : GstH265Picture) : RefSlot :=
  { pic := p.pic, poc := p.pic_order_cnt, is_long_term := p.long_term }

/-- Translated from the reference-frame loop of gst_h265_dec_start_picture
(src/lib/h265dec.cpp:668-688): scan the DPB array in order, skip pictures not
marked as reference, fail (GST_FLOW_ERROR, Too many reference frames) when a
qualifying picture is met while num_ref_pic has already reached the capacity,
otherwise append its slot and increment the running count. -/
def buildRefTableAux : List GstH265Picture → List RefSlot → Option (List RefSlot)
  | [], acc => some acc
  | p :: rest, acc =>
    if !p.ref then buildRefTableAux rest acc
    else if maxRefPics ≤ acc.length then none
    else buildRefTableAux rest (acc ++ [mkRefSlot p])

/-- The reference table built from the whole DPB, starting from num_ref_pic
= 0 (src/lib/h265dec.cpp:664-689). -/
def buildRefTable (dpb : List GstH265Picture) : Option (List RefSlot) :=
  buildRefTableAux dpb []

/-- Translated from the inner while loop of each classification pass
(e.g. src/lib/h265dec.cpp:693-694): advance the j cursor past NULL entries
and take the next non-NULL picture; the list models the array suffix from the
current j, so the returned remainder is the suffix after the taken entry. -/
def scanNext :
    List (Option GstH265Picture) →
      Option GstH265Picture × List (Option GstH265Picture)
  | [] => (none, [])
  | none :: rest => scanNext rest
  | some p :: rest => (some p, rest)

/-- Translated from the three identical classification loops of
gst_h265_dec_start_picture (src/lib/h265dec.cpp:690-736): for i from 0 to
n - 1 (n = num_ref_pic), scan the classification list forward from where the
previous iteration stopped (the shared j counter is modelled by consuming the
list), and if a non-NULL picture is found, store the index k of the first
reference-table POC equal to its POC; an output entry that is never written
(list exhausted, or no POC match) is modelled as none. -/
def classify (pocs : List Int) :
    Nat → List (Option GstH265Picture) → List (Option Nat)
  | 0, _ => []
  | n + 1, lst =>
    ((scanNext lst).1.bind fun p =>
        pocs.findIdx? fun q => q == p.pic_order_cnt) ::
      classify pocs n (scanNext lst).2

/-- One classification pass as invoked by gst_h265_dec_start_picture: the
output has one entry per reference-table slot and the POC column searched is
PicOrderCntVal. -/
def resolveClassificationIdx (table : List RefSlot)
    (lst : List (Option GstH265Picture)) : List (Option Nat) :=
  classify (table.map fun r => r.poc) table.length lst

/-- The three classification passes of gst_h265_dec_start_picture
(src/lib/h265dec.cpp:690-736); the source repeats the identical loop for
RefPicSetStCurrBefore, RefPicSetStCurrAfter and RefPicSetLtCurr. -/
def startPictureClassification (table : List RefSlot)
    (before after long_term : List (Option GstH265Picture)) :
    List (Option Nat) × List (Option Nat) × List (Option Nat) :=
  (resolveClassificationIdx table before,
   resolveClassificationIdx table after,
   resolveClassificationIdx table long_term)

/-- The reference-resolution part of gst_h265_dec_start_picture: build the
table from the DPB; on overflow the whole picture fails, otherwise run the
three classification passes. -/
def startPictureRefs (dpb : List GstH265Picture)
    (before after long_term : List (Option GstH265Picture)) :
    Option (List RefSlot ×
      (List (Option Nat) × List (Option Nat) × List (Option Nat))) :=
  match buildRefTable dpb with
  | none => none
  | some t => some (t, startPictureClassification t before after long_term)

/-! ## Bitstream assembler -/

/-- Per-picture assembler state: the fields of struct VkPic used by the
assembler (bitstream, slice_offsets, data.nNumSlices).  Bytes are Nats;
slice offsets are uint32_t, reduced mod 2 ^ 32 where written. -/
structure VkPic where
  bitstream : List Nat := []
  slice_offsets : List Nat := []
  nNumSlices : Nat := 0
  deriving DecidableEq

/-- Translated from vk_pic_new (src/lib/h265dec.cpp:94-105): fresh empty
bitstream and an offset array seeded with a single 0 entry. -/
def vk_pic_new : VkPic :=
  { bitstream := [], slice_offsets := [0], nNumSlices := 0 }

/-- The start code 00 00 01 re-inserted before every slice
(src/lib/h265dec.cpp:228). -/
def startCode : List Nat := [0, 0, 1]

/-- Translated from gst_h265_dec_decode_slice (src/lib/h265dec.cpp:223-244):
increment nNumSlices, append start code then slice payload to the bitstream,
and append previous last offset + payload size + start-code size (uint32_t
arithmetic) to the offset array. -/
def gst_h265_dec_decode_slice (vkpic : VkPic) (payload : List Nat) : VkPic :=
  { bitstream := vkpic.bitstream ++ startCode ++ payload
    slice_offsets := vkpic.slice_offsets ++
      [(vkpic.slice_offsets.getLastD 0 + payload.length + startCode.length)
         % 2 ^ 32]
    nNumSlices := vkpic.nNumSlices + 1 }

/-- A whole per-picture assembly run: a fresh session followed by one
decode_slice call per payload. -/
def assemble (payloads : List (List Nat)) : VkPic :=
  payloads.foldl gst_h265_dec_decode_slice vk_pic_new

/-! ## Parsed parameter sets (GStreamer side) -/

/-- GstH265VUIParams: the VUI fields consumed by fill_sps
(src/lib/h265dec.cpp:339-384). -/
structure GstH265VUIParams where
  aspect_ratio_info_present_flag : Nat := 0
  overscan_info_present_flag : Nat := 0
  overscan_appropriate_flag : Nat := 0
  video_signal_type_present_flag : Nat := 0
  video_full_range_flag : Nat := 0
  colour_description_present_flag : Nat := 0
  chroma_loc_info_present_flag : Nat := 0
  neutral_chroma_indication_flag : Nat := 0
  field_seq_flag : Nat := 0
  frame_field_info_present_flag : Nat := 0
  default_display_window_flag : Nat := 0
  timing_info_present_flag : Nat := 0
  poc_proportional_to_timing_flag : Nat := 0
  hrd_parameters_present_flag : Nat := 0
  bitstream_restriction_flag : Nat := 0
  tiles_fixed_structure_flag : Nat := 0
  motion_vectors_over_pic_boundaries_flag : Nat := 0
  restricted_ref_pic_lists_flag : Nat := 0
  aspect_ratio_idc : Nat := 0
  sar_width : Nat := 0
  sar_height : Nat := 0
  video_format : Nat := 0
  colour_primaries : Nat := 0
  transfer_characteristics : Nat := 0
  matrix_coefficients : Nat := 0
  chroma_sample_loc_type_top_field : Nat := 0
  chroma_sample_loc_type_bottom_field : Nat := 0
  def_disp_win_left_offset : Nat := 0
  def_disp_win_right_offset : Nat := 0
  def_disp_win_top_offset : Nat := 0
  def_disp_win_bottom_offset : Nat := 0
  num_units_in_tick : Nat := 0
  time_scale : Nat := 0
  num_ticks_poc_diff_one_minus1 : Nat := 0
  min_spatial_segmentation_idc : Nat := 0
  max_bytes_per_pic_denom : Nat := 0
  max_bits_per_min_cu_denom : Nat := 0
  log2_max_mv_length_horizontal : Nat := 0
  log2_max_mv_length_vertical : Nat := 0
  deriving DecidableEq

/-- GstH265ProfileTierLevel: the fields consumed by fill_sps. -/
structure GstH265ProfileTierLevel where
  profile_idc : Nat := 0
  level_idc : Nat := 0
  deriving DecidableEq

/-- GstH265SPSExtensionParams (range extension): fields consumed by
fill_sps (src/lib/h265dec.cpp:445-455). -/
structure GstH265SPSExtensionParams where
  transform_skip_context_enabled_flag : Nat := 0
  implicit_rdpcm_enabled_flag : Nat := 0
  explicit_rdpcm_enabled_flag : Nat := 0
  extended_precision_processing_flag : Nat := 0
  intra_smoothing_disabled_flag : Nat := 0
  high_precision_offsets_enabled_flag : Nat := 0
  persistent_rice_adaptation_enabled_flag : Nat := 0
  cabac_bypass_alignment_enabled_flag : Nat := 0
  deriving DecidableEq

/-- GstH265SPSSccExtensionParams: fields consumed by fill_sps. -/
structure GstH265SPSSccExtensionParams where
  sps_curr_pic_ref_enabled_flag : Nat := 0
  palette_mode_enabled_flag : Nat := 0
  sps_palette_predictor_initializers_present_flag : Nat := 0
  intra_boundary_filtering_disabled_flag : Nat := 0
  palette_max_size : Nat := 0
  delta_palette_max_predictor_size : Nat := 0
  motion_vector_resolution_control_idc : Nat := 0
  sps_num_palette_predictor_initializer_minus1 : Nat := 0
  deriving DecidableEq

/-- GST_H265_MAX_SUB_LAYERS, the bound of the per-sub-layer comparison loop
in sps_cmp. -/
def GST_H265_MAX_SUB_LAYERS : Nat := 8

/-- GstH265VPS: the fields read by vps_cmp (src/lib/h265dec.cpp:934-975) and
fill_vps (src/lib/h265dec.cpp:544-566).  Sub-structures the code only skips
(profile_tier_level, hrd_params) are omitted; per-sub-layer arrays are
lists. -/
structure GstH265VPS where
  id : Nat := 0
  base_layer_internal_flag : Nat := 0
  base_layer_available_flag : Nat := 0
  max_layers_minus1 : Nat := 0
  max_sub_layers_minus1 : Nat := 0
  temporal_id_nesting_flag : Nat := 0
  sub_layer_ordering_info_present_flag : Nat := 0
  max_dec_pic_buffering_minus1 : List Nat := []
  max_num_reorder_pics : List Nat := []
  max_latency_increase_plus1 : List Nat := []
  max_layer_id : Nat := 0
  num_layer_sets_minus1 : Nat := 0
  timing_info_present_flag : Nat := 0
  num_units_in_tick : Nat := 0
  time_scale : Nat := 0
  poc_proportional_to_timing_flag : Nat := 0
  num_ticks_poc_diff_one_minus1 : Nat := 0
  num_hrd_parameters : Nat := 0
  hrd_layer_set_idx : Nat := 0
  cprms_present_flag : Nat := 0
  vps_extension : Nat := 0
  valid : Nat := 0
  deriving DecidableEq

/-- GstH265SPS: the fields read by sps_cmp (src/lib/h265dec.cpp:751-855),
fill_sps (336-467) and gst_h265_dec_start_picture.  The back-pointer to the
VPS is an Option (sps->vps may be NULL, cf. line 439); sub-structures the
code never reads (scaling lists, short/long-term RPS arrays) are omitted,
exactly as sps_cmp skips them. -/
structure GstH265SPS where
  id : Nat := 0
  vps : Option GstH265VPS := none
  max_sub_layers_minus1 : Nat := 0
  temporal_id_nesting_flag : Nat := 0
  profile_tier_level : GstH265ProfileTierLevel := {}
  chroma_format_idc : Nat := 0
  separate_colour_plane_flag : Nat := 0
  pic_width_in_luma_samples : Nat := 0
  pic_height_in_luma_samples : Nat := 0
  conformance_window_flag : Nat := 0
  conf_win_left_offset : Nat := 0
  conf_win_right_offset : Nat := 0
  conf_win_top_offset : Nat := 0
  conf_win_bottom_offset : Nat := 0
  bit_depth_luma_minus8 : Nat := 0
  bit_depth_chroma_minus8 : Nat := 0
  log2_max_pic_order_cnt_lsb_minus4 : Nat := 0
  sub_layer_ordering_info_present_flag : Nat := 0
  max_dec_pic_buffering_minus1 : List Nat := []
  max_num_reorder_pics : List Nat := []
  max_latency_increase_plus1 : List Nat := []
  log2_min_luma_coding_block_size_minus3 : Nat := 0
  log2_diff_max_min_luma_coding_block_size : Nat := 0
  log2_min_transform_block_size_minus2 : Nat := 0
  log2_diff_max_min_transform_block_size : Nat := 0
  max_transform_hierarchy_depth_inter : Nat := 0
  max_transform_hierarchy_depth_intra : Nat := 0
  scaling_list_enabled_flag : Nat := 0
  scaling_list_data_present_flag : Nat := 0
  amp_enabled_flag : Nat := 0
  sample_adaptive_offset_enabled_flag : Nat := 0
  pcm_enabled_flag : Nat := 0
  pcm_sample_bit_depth_luma_minus1 : Nat := 0
  pcm_sample_bit_depth_chroma_minus1 : Nat := 0
  log2_min_pcm_luma_coding_block_size_minus3 : Nat := 0
  log2_diff_max_min_pcm_luma_coding_block_size : Nat := 0
  pcm_loop_filter_disabled_flag : Nat := 0
  num_short_term_ref_pic_sets : Nat := 0
  long_term_ref_pics_present_flag : Nat := 0
  num_long_term_ref_pics_sps : Nat := 0
  temporal_mvp_enabled_flag : Nat := 0
  strong_intra_smoothing_enabled_flag : Nat := 0
  vui_parameters_present_flag : Nat := 0
  vui_params : GstH265VUIParams := {}
  sps_extension_flag : Nat := 0
  sps_range_extension_flag : Nat := 0
  sps_multilayer_extension_flag : Nat := 0
  sps_3d_extension_flag : Nat := 0
  sps_scc_extension_flag : Nat := 0
  sps_extension_4bits : Nat := 0
  sps_extension_params : GstH265SPSExtensionParams := {}
  sps_scc_extension_params : GstH265SPSSccExtensionParams := {}
  chroma_array_type : Nat := 0
  width : Nat := 0
  height : Nat := 0
  crop_rect_width : Nat := 0
  crop_rect_height : Nat := 0
  crop_rect_x : Nat := 0
  crop_rect_y : Nat := 0
  fps_num : Nat := 0
  fps_den : Nat := 0
  valid : Nat := 0
  deriving DecidableEq

/-- GstH265PPSExtensionParams (range extension): fields consumed by
fill_pps. -/
structure GstH265PPSExtensionParams where
  log2_max_transform_skip_block_size_minus2 : Nat := 0
  cross_component_prediction_enabled_flag : Nat := 0
  chroma_qp_offset_list_enabled_flag : Nat := 0
  diff_cu_chroma_qp_offset_depth : Nat := 0
  chroma_qp_offset_list_len_minus1 : Nat := 0
  log2_sao_offset_scale_luma : Nat := 0
  log2_sao_offset_scale_chroma : Nat := 0
  deriving DecidableEq

/-- GstH265PPSSccExtensionParams: fields consumed by fill_pps. -/
structure GstH265PPSSccExtensionParams where
  pps_curr_pic_ref_enabled_flag : Nat := 0
  residual_adaptive_colour_transform_enabled_flag : Nat := 0
  pps_slice_act_qp_offsets_present_flag : Nat := 0
  pps_act_y_qp_offset_plus5 : Nat := 0
  pps_act_cb_qp_offset_plus5 : Nat := 0
  pps_act_cr_qp_offset_plus3 : Nat := 0
  pps_palette_predictor_initializers_present_flag : Nat := 0
  monochrome_palette_flag : Nat := 0
  pps_num_palette_predictor_initializer : Nat := 0
  luma_bit_depth_entry_minus8 : Nat := 0
  chroma_bit_depth_entry_minus8 : Nat := 0
  deriving DecidableEq

/-- GstH265PPS: the fields read by pps_cmp (src/lib/h265dec.cpp:857-932) and
fill_pps (469-542).  The back-pointer to the SPS is skipped exactly as
pps_cmp skips it; signed GLib fields are Int. -/
structure GstH265PPS where
  id : Nat := 0
  sps_id : Nat := 0
  dependent_slice_segments_enabled_flag : Nat := 0
  output_flag_present_flag : Nat := 0
  num_extra_slice_header_bits : Nat := 0
  sign_data_hiding_enabled_flag : Nat := 0
  cabac_init_present_flag : Nat := 0
  num_ref_idx_l0_default_active_minus1 : Nat := 0
  num_ref_idx_l1_default_active_minus1 : Nat := 0
  init_qp_minus26 : Int := 0
  constrained_intra_pred_flag : Nat := 0
  transform_skip_enabled_flag : Nat := 0
  cu_qp_delta_enabled_flag : Nat := 0
  diff_cu_qp_delta_depth : Nat := 0
  cb_qp_offset : Int := 0
  cr_qp_offset : Int := 0
  slice_chroma_qp_offsets_present_flag : Nat := 0
  weighted_pred_flag : Nat := 0
  weighted_bipred_flag : Nat := 0
  transquant_bypass_enabled_flag : Nat := 0
  tiles_enabled_flag : Nat := 0
  entropy_coding_sync_enabled_flag : Nat := 0
  num_tile_columns_minus1 : Nat := 0
  num_tile_rows_minus1 : Nat := 0
  uniform_spacing_flag : Nat := 0
  column_width_minus1 : List Nat := []
  row_height_minus1 : List Nat := []
  loop_filter_across_tiles_enabled_flag : Nat := 0
  loop_filter_across_slices_enabled_flag : Nat := 0
  deblocking_filter_control_present_flag : Nat := 0
  deblocking_filter_override_enabled_flag : Nat := 0
  deblocking_filter_disabled_flag : Nat := 0
  beta_offset_div2 : Int := 0
  tc_offset_div2 : Int := 0
  scaling_list_data_present_flag : Nat := 0
  lists_modification_present_flag : Nat := 0
  log2_parallel_merge_level_minus2 : Nat := 0
  slice_segment_header_extension_present_flag : Nat := 0
  pps_extension_flag : Nat := 0
  pps_range_extension_flag : Nat := 0
  pps_multilayer_extension_flag : Nat := 0
  pps_3d_extension_flag : Nat := 0
  pps_scc_extension_flag : Nat := 0
  pps_extension_4bits : Nat := 0
  pps_extension_params : GstH265PPSExtensionParams := {}
  pps_scc_extension_params : GstH265PPSSccExtensionParams := {}
  PicWidthInCtbsY : Nat := 0
  PicHeightInCtbsY : Nat := 0
  valid : Nat := 0
  deriving DecidableEq

/-! ## Field-subset comparison functions -/

/-- Translated from sps_cmp (src/lib/h265dec.cpp:751-855).  Each CMP_FIELD
early return becomes one conjunct, in source order; the commented-out fields
(vps back-pointer, profile_tier_level, scaling lists, short/long-term RPS
arrays, vui_params, extension parameter blocks) are NOT compared, exactly as
in the source.  The per-sub-layer loop compares the three arrays for
i < GST_H265_MAX_SUB_LAYERS. -/
def sps_cmp (a b : GstH265SPS) : Bool :=
  a.id == b.id &&
  a.max_sub_layers_minus1 == b.max_sub_layers_minus1 &&
  a.temporal_id_nesting_flag == b.temporal_id_nesting_flag &&
  a.chroma_format_idc == b.chroma_format_idc &&
  a.separate_colour_plane_flag == b.separate_colour_plane_flag &&
  a.pic_width_in_luma_samples == b.pic_width_in_luma_samples &&
  a.pic_height_in_luma_samples == b.pic_height_in_luma_samples &&
  a.conformance_window_flag == b.conformance_window_flag &&
  a.conf_win_left_offset == b.conf_win_left_offset &&
  a.conf_win_right_offset == b.conf_win_right_offset &&
  a.conf_win_top_offset == b.conf_win_top_offset &&
  a.conf_win_bottom_offset == b.conf_win_bottom_offset &&
  a.bit_depth_luma_minus8 == b.bit_depth_luma_minus8 &&
  a.bit_depth_chroma_minus8 == b.bit_depth_chroma_minus8 &&
  a.log2_max_pic_order_cnt_lsb_minus4 == b.log2_max_pic_order_cnt_lsb_minus4 &&
  a.sub_layer_ordering_info_present_flag ==
    b.sub_layer_ordering_info_present_flag &&
  (List.range GST_H265_MAX_SUB_LAYERS).all (fun i =>
    a.max_dec_pic_buffering_minus1.getD i 0 ==
      b.max_dec_pic_buffering_minus1.getD i 0 &&
    a.max_num_reorder_pics.getD i 0 == b.max_num_reorder_pics.getD i 0 &&
    a.max_latency_increase_plus1.getD i 0 ==
      b.max_latency_increase_plus1.getD i 0) &&
  a.log2_min_luma_coding_block_size_minus3 ==
    b.log2_min_luma_coding_block_size_minus3 &&
  a.log2_diff_max_min_luma_coding_block_size ==
    b.log2_diff_max_min_luma_coding_block_size &&
  a.log2_min_transform_block_size_minus2 ==
    b.log2_min_transform_block_size_minus2 &&
  a.log2_diff_max_min_transform_block_size ==
    b.log2_diff_max_min_transform_block_size &&
  a.max_transform_hierarchy_depth_inter ==
    b.max_transform_hierarchy_depth_inter &&
  a.max_transform_hierarchy_depth_intra ==
    b.max_transform_hierarchy_depth_intra &&
  a.scaling_list_enabled_flag == b.scaling_list_enabled_flag &&
  a.scaling_list_data_present_flag == b.scaling_list_data_present_flag &&
  a.amp_enabled_flag == b.amp_enabled_flag &&
  a.sample_adaptive_offset_enabled_flag ==
    b.sample_adaptive_offset_enabled_flag &&
  a.pcm_enabled_flag == b.pcm_enabled_flag &&
  a.pcm_sample_bit_depth_luma_minus1 == b.pcm_sample_bit_depth_luma_minus1 &&
  a.pcm_sample_bit_depth_chroma_minus1 ==
    b.pcm_sample_bit_depth_chroma_minus1 &&
  a.log2_min_pcm_luma_coding_block_size_minus3 ==
    b.log2_min_pcm_luma_coding_block_size_minus3 &&
  a.log2_diff_max_min_pcm_luma_coding_block_size ==
    b.log2_diff_max_min_pcm_luma_coding_block_size &&
  a.pcm_loop_filter_disabled_flag == b.pcm_loop_filter_disabled_flag &&
  a.num_short_term_ref_pic_sets == b.num_short_term_ref_pic_sets &&
  a.long_term_ref_pics_present_flag == b.long_term_ref_pics_present_flag &&
  a.num_long_term_ref_pics_sps == b.num_long_term_ref_pics_sps &&
  a.temporal_mvp_enabled_flag == b.temporal_mvp_enabled_flag &&
  a.strong_intra_smoothing_enabled_flag ==
    b.strong_intra_smoothing_enabled_flag &&
  a.vui_parameters_present_flag == b.vui_parameters_present_flag &&
  a.sps_extension_flag == b.sps_extension_flag &&
  a.sps_range_extension_flag == b.sps_range_extension_flag &&
  a.sps_multilayer_extension_flag == b.sps_multilayer_extension_flag &&
  a.sps_3d_extension_flag == b.sps_3d_extension_flag &&
  a.sps_scc_extension_flag == b.sps_scc_extension_flag &&
  a.sps_extension_4bits == b.sps_extension_4bits &&
  a.chroma_array_type == b.chroma_array_type &&
  a.width == b.width &&
  a.height == b.height &&
  a.crop_rect_width == b.crop_rect_width &&
  a.crop_rect_height == b.crop_rect_height &&
  a.crop_rect_x == b.crop_rect_x &&
  a.crop_rect_y == b.crop_rect_y &&
  a.fps_num == b.fps_num &&
  a.fps_den == b.fps_den &&
  a.valid == b.valid

/-- Translated from pps_cmp (src/lib/h265dec.cpp:857-932), one conjunct per
CMP_FIELD in source order; sps back-pointer, scaling lists, tile arrays and
the extension parameter blocks are NOT compared, as in the source. -/
def pps_cmp (a b : GstH265PPS) : Bool :=
  a.id == b.id &&
  a.dependent_slice_segments_enabled_flag ==
    b.dependent_slice_segments_enabled_flag &&
  a.output_flag_present_flag == b.output_flag_present_flag &&
  a.num_extra_slice_header_bits == b.num_extra_slice_header_bits &&
  a.sign_data_hiding_enabled_flag == b.sign_data_hiding_enabled_flag &&
  a.cabac_init_present_flag == b.cabac_init_present_flag &&
  a.num_ref_idx_l0_default_active_minus1 ==
    b.num_ref_idx_l0_default_active_minus1 &&
  a.num_ref_idx_l1_default_active_minus1 ==
    b.num_ref_idx_l1_default_active_minus1 &&
  a.init_qp_minus26 == b.init_qp_minus26 &&
  a.constrained_intra_pred_flag == b.constrained_intra_pred_flag &&
  a.transform_skip_enabled_flag == b.transform_skip_enabled_flag &&
  a.cu_qp_delta_enabled_flag == b.cu_qp_delta_enabled_flag &&
  a.diff_cu_qp_delta_depth == b.diff_cu_qp_delta_depth &&
  a.cb_qp_offset == b.cb_qp_offset &&
  a.cr_qp_offset == b.cr_qp_offset &&
  a.slice_chroma_qp_offsets_present_flag ==
    b.slice_chroma_qp_offsets_present_flag &&
  a.weighted_pred_flag == b.weighted_pred_flag &&
  a.weighted_bipred_flag == b.weighted_bipred_flag &&
  a.transquant_bypass_enabled_flag == b.transquant_bypass_enabled_flag &&
  a.tiles_enabled_flag == b.tiles_enabled_flag &&
  a.entropy_coding_sync_enabled_flag == b.entropy_coding_sync_enabled_flag &&
  a.num_tile_columns_minus1 == b.num_tile_columns_minus1 &&
  a.num_tile_rows_minus1 == b.num_tile_rows_minus1 &&
  a.uniform_spacing_flag == b.uniform_spacing_flag &&
  a.loop_filter_across_tiles_enabled_flag ==
    b.loop_filter_across_tiles_enabled_flag &&
  a.loop_filter_across_slices_enabled_flag ==
    b.loop_filter_across_slices_enabled_flag &&
  a.deblocking_filter_control_present_flag ==
    b.deblocking_filter_control_present_flag &&
  a.deblocking_filter_override_enabled_flag ==
    b.deblocking_filter_override_enabled_flag &&
  a.deblocking_filter_disabled_flag == b.deblocking_filter_disabled_flag &&
  a.beta_offset_div2 == b.beta_offset_div2 &&
  a.tc_offset_div2 == b.tc_offset_div2 &&
  a.scaling_list_data_present_flag == b.scaling_list_data_present_flag &&
  a.lists_modification_present_flag == b.lists_modification_present_flag &&
  a.log2_parallel_merge_level_minus2 == b.log2_parallel_merge_level_minus2 &&
  a.slice_segment_header_extension_present_flag ==
    b.slice_segment_header_extension_present_flag &&
  a.pps_extension_flag == b.pps_extension_flag &&
  a.pps_range_extension_flag == b.pps_range_extension_flag &&
  a.pps_multilayer_extension_flag == b.pps_multilayer_extension_flag &&
  a.pps_3d_extension_flag == b.pps_3d_extension_flag &&
  a.pps_scc_extension_flag == b.pps_scc_extension_flag &&
  a.pps_extension_4bits == b.pps_extension_4bits &&
  a.PicWidthInCtbsY == b.PicWidthInCtbsY &&
  a.PicHeightInCtbsY == b.PicHeightInCtbsY &&
  a.valid == b.valid

/-- Translated from vps_cmp (src/lib/h265dec.cpp:934-975), one conjunct per
CMP_FIELD in source order; profile_tier_level, the per-sub-layer arrays and
hrd_params are NOT compared, as in the source. -/
def vps_cmp (a b : GstH265VPS) : Bool :=
  a.id == b.id &&
  a.base_layer_internal_flag == b.base_layer_internal_flag &&
  a.base_layer_available_flag == b.base_layer_available_flag &&
  a.max_layers_minus1 == b.max_layers_minus1 &&
  a.max_sub_layers_minus1 == b.max_sub_layers_minus1 &&
  a.temporal_id_nesting_flag == b.temporal_id_nesting_flag &&
  a.sub_layer_ordering_info_present_flag ==
    b.sub_layer_ordering_info_present_flag &&
  a.max_layer_id == b.max_layer_id &&
  a.num_layer_sets_minus1 == b.num_layer_sets_minus1 &&
  a.timing_info_present_flag == b.timing_info_present_flag &&
  a.num_units_in_tick == b.num_units_in_tick &&
  a.time_scale == b.time_scale &&
  a.poc_proportional_to_timing_flag == b.poc_proportional_to_timing_flag &&
  a.num_ticks_poc_diff_one_minus1 == b.num_ticks_poc_diff_one_minus1 &&
  a.num_hrd_parameters == b.num_hrd_parameters &&
  a.hrd_layer_set_idx == b.hrd_layer_set_idx &&
  a.cprms_present_flag == b.cprms_present_flag &&
  a.vps_extension == b.vps_extension &&
  a.valid == b.valid

/-! ## Standard (Vulkan) descriptors and the converter -/

/-- STD_VIDEO_H265_PROFILE_IDC_INVALID from the Vulkan video std header. -/
def STD_VIDEO_H265_PROFILE_IDC_INVALID : Nat := 0x7FFFFFFF

/-- Translated from get_profile_idc (src/lib/h265dec.cpp:317-334): the
GStreamer profile values MAIN = 1, MAIN_10 = 2, MAIN_STILL_PICTURE = 3 and
FORMAT_RANGE_EXTENSION = 4 map to the identically numbered Vulkan std
values; everything else maps to INVALID. -/
def get_profile_idc : Nat → Nat
  | 1 => 1
  | 2 => 2
  | 3 => 3
  | 4 => 4
  | _ => STD_VIDEO_H265_PROFILE_IDC_INVALID

/-- Wrap a Nat (the value of a C unsigned expression) to a signed int8_t the
way static_cast<int8_t> does on two's-complement targets. -/
def int8OfNat (n : Nat) : Int :=
  ((n : Int) + 128) % 256 - 128

/-- StdVideoH265DecPicBufMgr: the three per-sub-layer arrays written by
fill_vps; the raw byte-wise memcpy of the source is modelled as an array
copy. -/
structure StdVideoH265DecPicBufMgr where
  max_latency_increase_plus1 : List Nat := []
  max_dec_pic_buffering_minus1 : List Nat := []
  max_num_reorder_pics : List Nat := []
  deriving DecidableEq

/-- StdVideoH265SequenceParameterSetVui as written by fill_sps
(src/lib/h265dec.cpp:339-384).  The one-bit flag bitfields are inlined at
the head of the structure and hold values reduced mod 2; pHrdParameters is
never set by the source and is omitted. -/
structure StdVideoH265SequenceParameterSetVui where
  aspect_ratio_info_present_flag : Nat := 0
  overscan_info_present_flag : Nat := 0
  overscan_appropriate_flag : Nat := 0
  video_signal_type_present_flag : Nat := 0
  video_full_range_flag : Nat := 0
  colour_description_present_flag : Nat := 0
  chroma_loc_info_present_flag : Nat := 0
  neutral_chroma_indication_flag : Nat := 0
  field_seq_flag : Nat := 0
  frame_field_info_present_flag : Nat := 0
  default_display_window_flag : Nat := 0
  vui_timing_info_present_flag : Nat := 0
  vui_poc_proportional_to_timing_flag : Nat := 0
  vui_hrd_parameters_present_flag : Nat := 0
  bitstream_restriction_flag : Nat := 0
  tiles_fixed_structure_flag : Nat := 0
  motion_vectors_over_pic_boundaries_flag : Nat := 0
  restricted_ref_pic_lists_flag : Nat := 0
  aspect_ratio_idc : Nat := 0
  sar_width : Nat := 0
  sar_height : Nat := 0
  video_format : Nat := 0
  colour_primaries : Nat := 0
  transfer_characteristics : Nat := 0
  matrix_coeffs : Nat := 0
  chroma_sample_loc_type_top_field : Nat := 0
  chroma_sample_loc_type_bottom_field : Nat := 0
  def_disp_win_left_offset : Nat := 0
  def_disp_win_right_offset : Nat := 0
  def_disp_win_top_offset : Nat := 0
  def_disp_win_bottom_offset : Nat := 0
  vui_num_units_in_tick : Nat := 0
  vui_time_scale : Nat := 0
  vui_num_ticks_poc_diff_one_minus1 : Nat := 0
  min_spatial_segmentation_idc : Nat := 0
  max_bytes_per_pic_denom : Nat := 0
  max_bits_per_min_cu_denom : Nat := 0
  log2_max_mv_length_horizontal : Nat := 0
  log2_max_mv_length_vertical : Nat := 0
  deriving DecidableEq

/-- StdVideoH265SequenceParameterSet as written by fill_sps
(src/lib/h265dec.cpp:386-467): flag bitfields inlined (mod 2), pointer
members modelled as presence booleans (pDecPicBufMgr,
pSequenceParameterSetVui); pScalingLists and pPredictorPaletteEntries are
never set by the source and are omitted. -/
structure StdVideoH265SequenceParameterSet where
  sps_temporal_id_nesting_flag : Nat := 0
  separate_colour_plane_flag : Nat := 0
  scaling_list_enabled_flag : Nat := 0
  sps_scaling_list_data_present_flag : Nat := 0
  amp_enabled_flag : Nat := 0
  sample_adaptive_offset_enabled_flag : Nat := 0
  pcm_enabled_flag : Nat := 0
  pcm_loop_filter_disabled_flag : Nat := 0
  long_term_ref_pics_present_flag : Nat := 0
  sps_temporal_mvp_enabled_flag : Nat := 0
  strong_intra_smoothing_enabled_flag : Nat := 0
  vui_parameters_present_flag : Nat := 0
  sps_extension_present_flag : Nat := 0
  sps_range_extension_flag : Nat := 0
  sps_scc_extension_flag : Nat := 0
  sps_curr_pic_ref_enabled_flag : Nat := 0
  palette_mode_enabled_flag : Nat := 0
  sps_palette_predictor_initializer_present_flag : Nat := 0
  intra_boundary_filtering_disabled_flag : Nat := 0
  transform_skip_rotation_enabled_flag : Nat := 0
  transform_skip_context_enabled_flag : Nat := 0
  implicit_rdpcm_enabled_flag : Nat := 0
  explicit_rdpcm_enabled_flag : Nat := 0
  extended_precision_processing_flag : Nat := 0
  intra_smoothing_disabled_flag : Nat := 0
  high_precision_offsets_enabled_flag : Nat := 0
  persistent_rice_adaptation_enabled_flag : Nat := 0
  cabac_bypass_alignment_enabled_flag : Nat := 0
  profile_idc : Nat := 0
  level_idc : Nat := 0
  pic_width_in_luma_samples : Nat := 0
  pic_height_in_luma_samples : Nat := 0
  sps_video_parameter_set_id : Nat := 0
  sps_max_sub_layers_minus1 : Nat := 0
  sps_seq_parameter_set_id : Nat := 0
  chroma_format_idc : Nat := 0
  bit_depth_luma_minus8 : Nat := 0
  bit_depth_chroma_minus8 : Nat := 0
  log2_max_pic_order_cnt_lsb_minus4 : Nat := 0
  log2_min_luma_coding_block_size_minus3 : Nat := 0
  log2_diff_max_min_luma_coding_block_size : Nat := 0
  log2_min_luma_transform_block_size_minus2 : Nat := 0
  log2_diff_max_min_luma_transform_block_size : Nat := 0
  max_transform_hierarchy_depth_inter : Nat := 0
  max_transform_hierarchy_depth_intra : Nat := 0
  num_short_term_ref_pic_sets : Nat := 0
  num_long_term_ref_pics_sps : Nat := 0
  pcm_sample_bit_depth_luma_minus1 : Nat := 0
  pcm_sample_bit_depth_chroma_minus1 : Nat := 0
  log2_min_pcm_luma_coding_block_size_minus3 : Nat := 0
  log2_diff_max_min_pcm_luma_coding_block_size : Nat := 0
  palette_max_size : Nat := 0
  delta_palette_max_predictor_size : Nat := 0
  motion_vector_resolution_control_idc : Nat := 0
  sps_num_palette_predictor_initializer_minus1 : Nat := 0
  conf_win_left_offset : Nat := 0
  conf_win_right_offset : Nat := 0
  conf_win_top_offset : Nat := 0
  conf_win_bottom_offset : Nat := 0
  pDecPicBufMgr : Bool := false
  pSequenceParameterSetVui : Bool := false
  deriving DecidableEq

/-- StdVideoH265PictureParameterSet as written by fill_pps
(src/lib/h265dec.cpp:469-542): flags inlined (mod 2); pScalingLists and
pPredictorPaletteEntries are never set and omitted; the byte-wise memcpy of
the tile arrays is modelled as an array copy. -/
structure StdVideoH265PictureParameterSet where
  dependent_slice_segments_enabled_flag : Nat := 0
  output_flag_present_flag : Nat := 0
  sign_data_hiding_enabled_flag : Nat := 0
  cabac_init_present_flag : Nat := 0
  constrained_intra_pred_flag : Nat := 0
  transform_skip_enabled_flag : Nat := 0
  cu_qp_delta_enabled_flag : Nat := 0
  pps_slice_chroma_qp_offsets_present_flag : Nat := 0
  weighted_pred_flag : Nat := 0
  weighted_bipred_flag : Nat := 0
  transquant_bypass_enabled_flag : Nat := 0
  tiles_enabled_flag : Nat := 0
  entropy_coding_sync_enabled_flag : Nat := 0
  uniform_spacing_flag : Nat := 0
  loop_filter_across_tiles_enabled_flag : Nat := 0
  pps_loop_filter_across_slices_enabled_flag : Nat := 0
  deblocking_filter_control_present_flag : Nat := 0
  deblocking_filter_override_enabled_flag : Nat := 0
  pps_deblocking_filter_disabled_flag : Nat := 0
  pps_scaling_list_data_present_flag : Nat := 0
  lists_modification_present_flag : Nat := 0
  slice_segment_header_extension_present_flag : Nat := 0
  pps_extension_present_flag : Nat := 0
  cross_component_prediction_enabled_flag : Nat := 0
  chroma_qp_offset_list_enabled_flag : Nat := 0
  pps_curr_pic_ref_enabled_flag : Nat := 0
  residual_adaptive_colour_transform_enabled_flag : Nat := 0
  pps_slice_act_qp_offsets_present_flag : Nat := 0
  pps_palette_predictor_initializer_present_flag : Nat := 0
  monochrome_palette_flag : Nat := 0
  pps_range_extension_flag : Nat := 0
  pps_pic_parameter_set_id : Nat := 0
  pps_seq_parameter_set_id : Nat := 0
  num_extra_slice_header_bits : Nat := 0
  num_ref_idx_l0_default_active_minus1 : Nat := 0
  num_ref_idx_l1_default_active_minus1 : Nat := 0
  init_qp_minus26 : Int := 0
  diff_cu_qp_delta_depth : Nat := 0
  pps_cb_qp_offset : Int := 0
  pps_cr_qp_offset : Int := 0
  num_tile_columns_minus1 : Nat := 0
  num_tile_rows_minus1 : Nat := 0
  column_width_minus1 : List Nat := []
  row_height_minus1 : List Nat := []
  pps_beta_offset_div2 : Int := 0
  pps_tc_offset_div2 : Int := 0
  log2_parallel_merge_level_minus2 : Nat := 0
  log2_max_transform_skip_block_size_minus2 : Nat := 0
  diff_cu_chroma_qp_offset_depth : Nat := 0
  chroma_qp_offset_list_len_minus1 : Nat := 0
  cb_qp_offset_list : Int := 0
  cr_qp_offset_list : Int := 0
  log2_sao_offset_scale_luma : Nat := 0
  log2_sao_offset_scale_chroma : Nat := 0
  pps_act_y_qp_offset_plus5 : Int := 0
  pps_act_cb_qp_offset_plus5 : Int := 0
  pps_act_cr_qp_offset_plus5 : Int := 0
  pps_num_palette_predictor_initializer : Nat := 0
  luma_bit_depth_entry_minus8 : Nat := 0
  chroma_bit_depth_entry_minus8 : Nat := 0
  deriving DecidableEq

/-- StdVideoH265VideoParameterSet as written by fill_vps
(src/lib/h265dec.cpp:544-566): flags inlined (mod 2), pDecPicBufMgr as a
presence boolean; pHrdParameters is never set and omitted. -/
structure StdVideoH265VideoParameterSet where
  vps_temporal_id_nesting_flag : Nat := 0
  vps_sub_layer_ordering_info_present_flag : Nat := 0
  vps_timing_info_present_flag : Nat := 0
  vps_poc_proportional_to_timing_flag : Nat := 0
  vps_video_parameter_set_id : Nat := 0
  vps_max_sub_layers_minus1 : Nat := 0
  vps_num_units_in_tick : Nat := 0
  vps_time_scale : Nat := 0
  vps_num_ticks_poc_diff_one_minus1 : Nat := 0
  pDecPicBufMgr : Bool := false
  deriving DecidableEq

/-- VkH265Picture (src/lib/h265dec.cpp:41-51): the bundle of standard
descriptors filled by fill_sps / fill_pps / fill_vps.  The hrd and scaling
list members are never written by the translated code and are omitted. -/
structure VkH265Picture where
  vui : StdVideoH265SequenceParameterSetVui := {}
  sps : StdVideoH265SequenceParameterSet := {}
  pps : StdVideoH265PictureParameterSet := {}
  vps : StdVideoH265VideoParameterSet := {}
  pic_buf_mgr : StdVideoH265DecPicBufMgr := {}
  deriving DecidableEq

/-- Translated from fill_sps (src/lib/h265dec.cpp:336-467).  The VUI block is
written only when vui_parameters_present_flag is set (otherwise vkp->vui
keeps its previous contents); the main descriptor is overwritten wholesale by
the compound literal (unlisted members zeroed), then amended by the
conditional blocks: vps id when the back-pointer is non-NULL, the range
extension flags (note: the source feeds transform_skip_context_enabled_flag
into BOTH transform_skip_rotation_enabled_flag and
transform_skip_context_enabled_flag), the SCC extension scalars, and the VUI
pointer. -/
def fill_sps (sps : GstH265SPS) (vkp : VkH265Picture) : VkH265Picture :=
  let vkp :=
    if sps.vui_parameters_present_flag != 0 then
      { vkp with vui :=
        { aspect_ratio_info_present_flag :=
            sps.vui_params.aspect_ratio_info_present_flag % 2
          overscan_info_present_flag :=
            sps.vui_params.overscan_info_present_flag % 2
          overscan_appropriate_flag :=
            sps.vui_params.overscan_appropriate_flag % 2
          video_signal_type_present_flag :=
            sps.vui_params.video_signal_type_present_flag % 2
          video_full_range_flag := sps.vui_params.video_full_range_flag % 2
          colour_description_present_flag :=
            sps.vui_params.colour_description_present_flag % 2
          chroma_loc_info_present_flag :=
            sps.vui_params.chroma_loc_info_present_flag % 2
          neutral_chroma_indication_flag :=
            sps.vui_params.neutral_chroma_indication_flag % 2
          field_seq_flag := sps.vui_params.field_seq_flag % 2
          frame_field_info_present_flag :=
            sps.vui_params.frame_field_info_present_flag % 2
          default_display_window_flag :=
            sps.vui_params.default_display_window_flag % 2
          vui_timing_info_present_flag :=
            sps.vui_params.timing_info_present_flag % 2
          vui_poc_proportional_to_timing_flag :=
            sps.vui_params.poc_proportional_to_timing_flag % 2
          vui_hrd_parameters_present_flag :=
            sps.vui_params.hrd_parameters_present_flag % 2
          bitstream_restriction_flag :=
            sps.vui_params.bitstream_restriction_flag % 2
          tiles_fixed_structure_flag :=
            sps.vui_params.tiles_fixed_structure_flag % 2
          motion_vectors_over_pic_boundaries_flag :=
            sps.vui_params.motion_vectors_over_pic_boundaries_flag % 2
          restricted_ref_pic_lists_flag :=
            sps.vui_params.restricted_ref_pic_lists_flag % 2
          aspect_ratio_idc := sps.vui_params.aspect_ratio_idc
          sar_width := sps.vui_params.sar_width
          sar_height := sps.vui_params.sar_height
          video_format := sps.vui_params.video_format
          colour_primaries := sps.vui_params.colour_primaries
          transfer_characteristics := sps.vui_params.transfer_characteristics
          matrix_coeffs := sps.vui_params.matrix_coefficients
          chroma_sample_loc_type_top_field :=
            sps.vui_params.chroma_sample_loc_type_top_field
          chroma_sample_loc_type_bottom_field :=
            sps.vui_params.chroma_sample_loc_type_bottom_field
          def_disp_win_left_offset :=
            sps.vui_params.def_disp_win_left_offset % 2 ^ 16
          def_disp_win_right_offset :=
            sps.vui_params.def_disp_win_right_offset % 2 ^ 16
          def_disp_win_top_offset :=
            sps.vui_params.def_disp_win_top_offset % 2 ^ 16
          def_disp_win_bottom_offset :=
            sps.vui_params.def_disp_win_bottom_offset % 2 ^ 16
          vui_num_units_in_tick := sps.vui_params.num_units_in_tick
          vui_time_scale := sps.vui_params.time_scale
          vui_num_ticks_poc_diff_one_minus1 :=
            sps.vui_params.num_ticks_poc_diff_one_minus1
          min_spatial_segmentation_idc :=
            sps.vui_params.min_spatial_segmentation_idc
          max_bytes_per_pic_denom := sps.vui_params.max_bytes_per_pic_denom
          max_bits_per_min_cu_denom := sps.vui_params.max_bits_per_min_cu_denom
          log2_max_mv_length_horizontal :=
            sps.vui_params.log2_max_mv_length_horizontal
          log2_max_mv_length_vertical :=
            sps.vui_params.log2_max_mv_length_vertical } }
    else vkp
  let vkp :=
    { vkp with sps :=
      { sps_temporal_id_nesting_flag := sps.temporal_id_nesting_flag % 2
        separate_colour_plane_flag := sps.separate_colour_plane_flag % 2
        scaling_list_enabled_flag := sps.scaling_list_enabled_flag % 2
        sps_scaling_list_data_present_flag :=
          sps.scaling_list_data_present_flag % 2
        amp_enabled_flag := sps.amp_enabled_flag % 2
        sample_adaptive_offset_enabled_flag :=
          sps.sample_adaptive_offset_enabled_flag % 2
        pcm_enabled_flag := sps.pcm_enabled_flag % 2
        pcm_loop_filter_disabled_flag := sps.pcm_loop_filter_disabled_flag % 2
        long_term_ref_pics_present_flag :=
          sps.long_term_ref_pics_present_flag % 2
        sps_temporal_mvp_enabled_flag := sps.temporal_mvp_enabled_flag % 2
        strong_intra_smoothing_enabled_flag :=
          sps.strong_intra_smoothing_enabled_flag % 2
        vui_parameters_present_flag := sps.vui_parameters_present_flag % 2
        sps_extension_present_flag := sps.sps_extension_flag % 2
        sps_range_extension_flag := sps.sps_range_extension_flag % 2
        sps_scc_extension_flag := sps.sps_scc_extension_flag % 2
        sps_curr_pic_ref_enabled_flag :=
          sps.sps_scc_extension_params.sps_curr_pic_ref_enabled_flag % 2
        palette_mode_enabled_flag :=
          sps.sps_scc_extension_params.palette_mode_enabled_flag % 2
        sps_palette_predictor_initializer_present_flag :=
          sps.sps_scc_extension_params.sps_palette_predictor_initializers_present_flag % 2
        intra_boundary_filtering_disabled_flag :=
          sps.sps_scc_extension_params.intra_boundary_filtering_disabled_flag % 2
        profile_idc := get_profile_idc sps.profile_tier_level.profile_idc
        level_idc := sps.profile_tier_level.level_idc
        pic_width_in_luma_samples := sps.pic_width_in_luma_samples
        pic_height_in_luma_samples := sps.pic_height_in_luma_samples
        sps_max_sub_layers_minus1 := sps.max_sub_layers_minus1
        sps_seq_parameter_set_id := sps.id
        chroma_format_idc := sps.chroma_format_idc
        bit_depth_luma_minus8 := sps.bit_depth_luma_minus8
        bit_depth_chroma_minus8 := sps.bit_depth_chroma_minus8
        log2_max_pic_order_cnt_lsb_minus4 :=
          sps.log2_max_pic_order_cnt_lsb_minus4
        log2_min_luma_coding_block_size_minus3 :=
          sps.log2_min_luma_coding_block_size_minus3
        log2_diff_max_min_luma_coding_block_size :=
          sps.log2_diff_max_min_luma_coding_block_size
        log2_min_luma_transform_block_size_minus2 :=
          sps.log2_min_transform_block_size_minus2
        log2_diff_max_min_luma_transform_block_size :=
          sps.log2_diff_max_min_transform_block_size
        max_transform_hierarchy_depth_inter :=
          sps.max_transform_hierarchy_depth_inter
        max_transform_hierarchy_depth_intra :=
          sps.max_transform_hierarchy_depth_intra
        num_short_term_ref_pic_sets := sps.num_short_term_ref_pic_sets
        num_long_term_ref_pics_sps := sps.num_long_term_ref_pics_sps
        pcm_sample_bit_depth_luma_minus1 :=
          sps.pcm_sample_bit_depth_luma_minus1
        pcm_sample_bit_depth_chroma_minus1 :=
          sps.pcm_sample_bit_depth_chroma_minus1
        log2_min_pcm_luma_coding_block_size_minus3 :=
          sps.log2_min_pcm_luma_coding_block_size_minus3
        log2_diff_max_min_pcm_luma_coding_block_size :=
          sps.log2_diff_max_min_pcm_luma_coding_block_size
        conf_win_left_offset := sps.conf_win_left_offset
        conf_win_right_offset := sps.conf_win_right_offset
        conf_win_top_offset := sps.conf_win_top_offset
        conf_win_bottom_offset := sps.conf_win_bottom_offset
        pDecPicBufMgr := true } }
  let vkp :=
    match sps.vps with
    | some vps =>
      { vkp with sps :=
        { vkp.sps with sps_video_parameter_set_id := vps.id } }
    | none => vkp
  let vkp :=
    if sps.sps_extension_flag != 0 then
      { vkp with sps :=
        { vkp.sps with
          transform_skip_rotation_enabled_flag :=
            sps.sps_extension_params.transform_skip_context_enabled_flag % 2
          transform_skip_context_enabled_flag :=
            sps.sps_extension_params.transform_skip_context_enabled_flag % 2
          implicit_rdpcm_enabled_flag :=
            sps.sps_extension_params.implicit_rdpcm_enabled_flag % 2
          explicit_rdpcm_enabled_flag :=
            sps.sps_extension_params.explicit_rdpcm_enabled_flag % 2
          extended_precision_processing_flag :=
            sps.sps_extension_params.extended_precision_processing_flag % 2
          intra_smoothing_disabled_flag :=
            sps.sps_extension_params.intra_smoothing_disabled_flag % 2
          high_precision_offsets_enabled_flag :=
            sps.sps_extension_params.high_precision_offsets_enabled_flag % 2
          persistent_rice_adaptation_enabled_flag :=
            sps.sps_extension_params.persistent_rice_adaptation_enabled_flag % 2
          cabac_bypass_alignment_enabled_flag :=
            sps.sps_extension_params.cabac_bypass_alignment_enabled_flag % 2 } }
    else vkp
  let vkp :=
    if sps.sps_scc_extension_flag != 0 then
      { vkp with sps :=
        { vkp.sps with
          palette_max_size := sps.sps_scc_extension_params.palette_max_size
          delta_palette_max_predictor_size :=
            sps.sps_scc_extension_params.delta_palette_max_predictor_size
          motion_vector_resolution_control_idc :=
            sps.sps_scc_extension_params.motion_vector_resolution_control_idc
          sps_num_palette_predictor_initializer_minus1 :=
            sps.sps_scc_extension_params.sps_num_palette_predictor_initializer_minus1 } }
    else vkp
  if sps.vui_parameters_present_flag != 0 then
    { vkp with sps := { vkp.sps with pSequenceParameterSetVui := true } }
  else vkp

/-- Translated from fill_pps (src/lib/h265dec.cpp:469-542): a single
compound literal (unlisted members zeroed) plus the two tile-array copies.
Note the source quirks kept here: cb_qp_offset_list and cr_qp_offset_list
receive the scalar pps->cb_qp_offset / pps->cr_qp_offset, and
pps_act_cr_qp_offset_plus5 is filled from the plus3 field. -/
def fill_pps (pps : GstH265PPS) (vkp : VkH265Picture) : VkH265Picture :=
  { vkp with pps :=
    { dependent_slice_segments_enabled_flag :=
        pps.dependent_slice_segments_enabled_flag % 2
      output_flag_present_flag := pps.output_flag_present_flag % 2
      sign_data_hiding_enabled_flag := pps.sign_data_hiding_enabled_flag % 2
      cabac_init_present_flag := pps.cabac_init_present_flag % 2
      constrained_intra_pred_flag := pps.constrained_intra_pred_flag % 2
      transform_skip_enabled_flag := pps.transform_skip_enabled_flag % 2
      cu_qp_delta_enabled_flag := pps.cu_qp_delta_enabled_flag % 2
      pps_slice_chroma_qp_offsets_present_flag :=
        pps.slice_chroma_qp_offsets_present_flag % 2
      weighted_pred_flag := pps.weighted_pred_flag % 2
      weighted_bipred_flag := pps.weighted_bipred_flag % 2
      transquant_bypass_enabled_flag := pps.transquant_bypass_enabled_flag % 2
      tiles_enabled_flag := pps.tiles_enabled_flag % 2
      entropy_coding_sync_enabled_flag :=
        pps.entropy_coding_sync_enabled_flag % 2
      uniform_spacing_flag := pps.uniform_spacing_flag % 2
      loop_filter_across_tiles_enabled_flag :=
        pps.loop_filter_across_tiles_enabled_flag % 2
      pps_loop_filter_across_slices_enabled_flag :=
        pps.loop_filter_across_slices_enabled_flag % 2
      deblocking_filter_control_present_flag :=
        pps.deblocking_filter_control_present_flag % 2
      deblocking_filter_override_enabled_flag :=
        pps.deblocking_filter_override_enabled_flag % 2
      pps_deblocking_filter_disabled_flag :=
        pps.deblocking_filter_disabled_flag % 2
      pps_scaling_list_data_present_flag :=
        pps.scaling_list_data_present_flag % 2
      lists_modification_present_flag :=
        pps.lists_modification_present_flag % 2
      slice_segment_header_extension_present_flag :=
        pps.slice_segment_header_extension_present_flag % 2
      pps_extension_present_flag := pps.pps_extension_flag % 2
      cross_component_prediction_enabled_flag :=
        pps.pps_extension_params.cross_component_prediction_enabled_flag % 2
      chroma_qp_offset_list_enabled_flag :=
        pps.pps_extension_params.chroma_qp_offset_list_enabled_flag % 2
      pps_curr_pic_ref_enabled_flag :=
        pps.pps_scc_extension_params.pps_curr_pic_ref_enabled_flag % 2
      residual_adaptive_colour_transform_enabled_flag :=
        pps.pps_scc_extension_params.residual_adaptive_colour_transform_enabled_flag % 2
      pps_slice_act_qp_offsets_present_flag :=
        pps.pps_scc_extension_params.pps_slice_act_qp_offsets_present_flag % 2
      pps_palette_predictor_initializer_present_flag :=
        pps.pps_scc_extension_params.pps_palette_predictor_initializers_present_flag % 2
      monochrome_palette_flag :=
        pps.pps_scc_extension_params.monochrome_palette_flag % 2
      pps_range_extension_flag := pps.pps_range_extension_flag % 2
      pps_pic_parameter_set_id := pps.id % 2 ^ 8
      pps_seq_parameter_set_id := pps.sps_id % 2 ^ 8
      num_extra_slice_header_bits := pps.num_extra_slice_header_bits
      num_ref_idx_l0_default_active_minus1 :=
        pps.num_ref_idx_l0_default_active_minus1
      num_ref_idx_l1_default_active_minus1 :=
        pps.num_ref_idx_l1_default_active_minus1
      init_qp_minus26 := pps.init_qp_minus26
      diff_cu_qp_delta_depth := pps.diff_cu_qp_delta_depth
      pps_cb_qp_offset := pps.cb_qp_offset
      pps_cr_qp_offset := pps.cr_qp_offset
      num_tile_columns_minus1 := pps.num_tile_columns_minus1
      num_tile_rows_minus1 := pps.num_tile_rows_minus1
      pps_beta_offset_div2 := pps.beta_offset_div2
      pps_tc_offset_div2 := pps.tc_offset_div2
      log2_parallel_merge_level_minus2 := pps.log2_parallel_merge_level_minus2
      log2_max_transform_skip_block_size_minus2 :=
        pps.pps_extension_params.log2_max_transform_skip_block_size_minus2 % 2 ^ 8
      diff_cu_chroma_qp_offset_depth :=
        pps.pps_extension_params.diff_cu_chroma_qp_offset_depth
      chroma_qp_offset_list_len_minus1 :=
        pps.pps_extension_params.chroma_qp_offset_list_len_minus1
      cb_qp_offset_list := pps.cb_qp_offset
      cr_qp_offset_list := pps.cr_qp_offset
      log2_sao_offset_scale_luma :=
        pps.pps_extension_params.log2_sao_offset_scale_luma
      log2_sao_offset_scale_chroma :=
        pps.pps_extension_params.log2_sao_offset_scale_chroma
      pps_act_y_qp_offset_plus5 :=
        int8OfNat pps.pps_scc_extension_params.pps_act_y_qp_offset_plus5
      pps_act_cb_qp_offset_plus5 :=
        int8OfNat pps.pps_scc_extension_params.pps_act_cb_qp_offset_plus5
      pps_act_cr_qp_offset_plus5 :=
        int8OfNat pps.pps_scc_extension_params.pps_act_cr_qp_offset_plus3
      pps_num_palette_predictor_initializer :=
        pps.pps_scc_extension_params.pps_num_palette_predictor_initializer
      luma_bit_depth_entry_minus8 :=
        pps.pps_scc_extension_params.luma_bit_depth_entry_minus8
      chroma_bit_depth_entry_minus8 :=
        pps.pps_scc_extension_params.chroma_bit_depth_entry_minus8 % 2 ^ 8
      column_width_minus1 := pps.column_width_minus1
      row_height_minus1 := pps.row_height_minus1 } }

/-- Translated from fill_vps (src/lib/h265dec.cpp:544-566): the descriptor
literal (pDecPicBufMgr still clear), then the three pic_buf_mgr array copies,
then pDecPicBufMgr is pointed at the bundle's pic_buf_mgr. -/
def fill_vps (vps : GstH265VPS) (vkp : VkH265Picture) : VkH265Picture :=
  let vkp :=
    { vkp with vps :=
      { vps_temporal_id_nesting_flag := vps.temporal_id_nesting_flag % 2
        vps_sub_layer_ordering_info_present_flag :=
          vps.sub_layer_ordering_info_present_flag % 2
        vps_timing_info_present_flag := vps.timing_info_present_flag % 2
        vps_poc_proportional_to_timing_flag :=
          vps.poc_proportional_to_timing_flag % 2
        vps_video_parameter_set_id := vps.id
        vps_max_sub_layers_minus1 := vps.max_sub_layers_minus1
        vps_num_units_in_tick := vps.num_units_in_tick
        vps_time_scale := vps.time_scale
        vps_num_ticks_poc_diff_one_minus1 :=
          vps.num_ticks_poc_diff_one_minus1 } }
  let vkp :=
    { vkp with pic_buf_mgr :=
      { max_latency_increase_plus1 := vps.max_latency_increase_plus1
        max_dec_pic_buffering_minus1 := vps.max_dec_pic_buffering_minus1
        max_num_reorder_pics := vps.max_num_reorder_pics } }
  { vkp with vps := { vkp.vps with pDecPicBufMgr := true } }

/-! ## The decoder state and the parameter change cache -/

/-- GstH265Dec (src/lib/h265dec.cpp:53-72): the decoder-session fields the
cache uses.  client models whether a VkParserVideoDecodeClient is attached
(set once at construction); the three VkSharedBaseObj correlation tokens are
opaque and carry no state relevant to the claims, so they are not
modelled. -/
structure GstH265Dec where
  client : Bool := false
  oob_pic_params : Bool := false
  last_sps : GstH265SPS := {}
  last_pps : GstH265PPS := {}
  last_vps : GstH265VPS := {}
  vkp : VkH265Picture := {}
  sps_update_count : Nat := 0
  pps_update_count : Nat := 0
  deriving DecidableEq

/-- The freshly-constructed decoder: GObject allocation zero-initialises
every field; user-data (client) and oob-pic-params are construct-only
properties. -/
def gst_h265_dec_init (client oob_pic_params : Bool) : GstH265Dec :=
  { client := client, oob_pic_params := oob_pic_params }

/-- The update type tags of VkPictureParameters
(VK_PICTURE_PARAMETERS_UPDATE_H265_SPS / PPS / VPS). -/
inductive VkPictureParametersUpdateType where
  | h265Sps
  | h265Pps
  | h265Vps
  deriving DecidableEq

/-- VkPictureParameters as built by
gst_h265_dec_update_picture_parameters: the update type, a pointer to the
freshly filled descriptor (modelled by value) and updateSequenceCount. -/
structure VkPictureParameters where
  updateType : VkPictureParametersUpdateType
  pH265Sps : Option StdVideoH265SequenceParameterSet := none
  pH265Pps : Option StdVideoH265PictureParameterSet := none
  pH265Vps : Option StdVideoH265VideoParameterSet := none
  updateSequenceCount : Nat := 0
  deriving DecidableEq

/-- Discriminator for SPS update events. -/
def isSpsUpdate (p : VkPictureParameters) : Bool :=
  match p.updateType with
  | VkPictureParametersUpdateType.h265Sps => true
  | _ => false

/-- Discriminator for PPS update events. -/
def isPpsUpdate (p : VkPictureParameters) : Bool :=
  match p.updateType with
  | VkPictureParametersUpdateType.h265Pps => true
  | _ => false

/-- Discriminator for VPS update events. -/
def isVpsUpdate (p : VkPictureParameters) : Bool :=
  match p.updateType with
  | VkPictureParametersUpdateType.h265Vps => true
  | _ => false

/-- The observable outcome of one gst_h265_dec_update_picture_parameters
call: the new decoder state, the VkPictureParameters record built (none when
the early compare-equal return was taken, and always none for VPS, whose
publish block is unreachable), whether client->UpdatePictureParameters was
invoked, and whether its failure was logged (GST_ERROR_OBJECT). -/
structure UpdateResult where
  state : GstH265Dec
  params : Option VkPictureParameters
  publishAttempted : Bool
  publishFailed : Bool
  deriving DecidableEq

/-- One NAL unit handed to gst_h265_dec_update_picture_parameters; other
covers the default switch case. -/
inductive NalInput where
  | sps (v : GstH265SPS)
  | pps (v : GstH265PPS)
  | vps (v : GstH265VPS)
  | other
  deriving DecidableEq

/-- Translated from gst_h265_dec_update_picture_parameters
(src/lib/h265dec.cpp:977-1049).  SPS case: if sps_cmp finds the cached copy
equal, return with no mutation; otherwise store last_sps, run fill_sps into
the shared bundle, build VkPictureParameters with updateSequenceCount =
sps_update_count++ (the emitted number is the pre-increment value), and, if a
client is attached, call UpdatePictureParameters, logging on failure
(publishOk is the value the backend call would return).  PPS case is
identical with pps_cmp / fill_pps / pps_update_count.  VPS case: compare and
store last_vps, then unconditionally drop the packet (the source's
if (true) early return; its publish block is dead code).  The default case
does nothing. -/
def gst_h265_dec_update_picture_parameters (s : GstH265Dec)
    (input : NalInput) (publishOk : Bool) : UpdateResult :=
  match input with
  | NalInput.sps v =>
    if sps_cmp s.last_sps v then
      { state := s
        params := none
        publishAttempted := false
        publishFailed := false }
    else
      { state :=
          { s with
            last_sps := v
            vkp := fill_sps v s.vkp
            sps_update_count := s.sps_update_count + 1 }
        params := some
          { updateType := VkPictureParametersUpdateType.h265Sps
            pH265Sps := some (fill_sps v s.vkp).sps
            updateSequenceCount := s.sps_update_count }
        publishAttempted := s.client
        publishFailed := s.client && !publishOk }
  | NalInput.pps v =>
    if pps_cmp s.last_pps v then
      { state := s
        params := none
        publishAttempted := false
        publishFailed := false }
    else
      { state :=
          { s with
            last_pps := v
            vkp := fill_pps v s.vkp
            pps_update_count := s.pps_update_count + 1 }
        params := some
          { updateType := VkPictureParametersUpdateType.h265Pps
            pH265Pps := some (fill_pps v s.vkp).pps
            updateSequenceCount := s.pps_update_count }
        publishAttempted := s.client
        publishFailed := s.client && !publishOk }
  | NalInput.vps v =>
    if vps_cmp s.last_vps v then
      { state := s
        params := none
        publishAttempted := false
        publishFailed := false }
    else
      { state := { s with last_vps := v }
        params := none
        publishAttempted := false
        publishFailed := false }
  | NalInput.other =>
    { state := s
      params := none
      publishAttempted := false
      publishFailed := false }

/-- A run of parameter-set NAL units through the cache: each element carries
the NAL and the result the backend publish call would return; the second
component collects, in order, the VkPictureParameters of every publish call
actually made. -/
def runUpdates (s : GstH265Dec) :
    List (NalInput × Bool) → GstH265Dec × List VkPictureParameters
  | [] => (s, [])
  | (n, ok) :: rest =>
    let r := gst_h265_dec_update_picture_parameters s n ok
    let t := runUpdates r.state rest
    (t.1, (if r.publishAttempted then r.params.toList else []) ++ t.2)

/-- Translated from the descriptor-source decision of
gst_h265_dec_start_picture (src/lib/h265dec.cpp:579-584): when this
condition holds, vkp is redirected to the picture's own VkH265Picture and
fill_sps / fill_pps are run fresh into it; otherwise the picture refers to
the shared self->vkp maintained by the cache.  The duplicated
sps_update_count test is kept exactly as in the source. -/
def startPictureFillsPerPicture (s : GstH265Dec) : Bool :=
  !s.oob_pic_params || (s.sps_update_count == 0 && s.sps_update_count == 0)

/-! ## Concrete instances used by the claims -/

/-- Reference table with POCs 10, 20, 30 used by the classification
example. -/
def exampleTable : List RefSlot :=
  [{ poc := 10 }, { poc := 20 }, { poc := 30 }]

/-- Classification list holding NULL, a picture with POC 20, NULL. -/
def exampleBefore : List (Option GstH265Picture) :=
  [none, some { pic_order_cnt := 20 }, none]

/-- DPB with 5 pictures of which the ones with POCs 10, 20, 30 are marked
reference. -/
def exampleDpb5 : List GstH265Picture :=
  [{ pic_order_cnt := 10, ref := true, pic := 1 },
   { pic_order_cnt := 11, ref := false, pic := 2 },
   { pic_order_cnt := 20, ref := true, pic := 3 },
   { pic_order_cnt := 21, ref := false, pic := 4 },
   { pic_order_cnt := 30, ref := true, pic := 5 }]

/-- A reference picture, replicated 17 times for the overflow example. -/
def refPic : GstH265Picture := { pic_order_cnt := 1, ref := true }

/-- Payload of length 5 for the assembler example. -/
def payloadFive : List Nat := [1, 1, 1, 1, 1]

/-- Payload of length 7 for the assembler example. -/
def payloadSeven : List Nat := [2, 2, 2, 2, 2, 2, 2]

/-- An SPS whose id differs from the zero-initialised cache. -/
def spsOne : GstH265SPS := { id := 1 }

/-- A PPS whose id differs from the zero-initialised cache. -/
def ppsOne : GstH265PPS := { id := 1 }

/-- An SPS with VUI present. -/
def spsVuiA : GstH265SPS := { vui_parameters_present_flag := 1 }

/-- The same SPS with different VUI contents (sar_width 7). -/
def spsVuiB : GstH265SPS := { spsVuiA with vui_params := { sar_width := 7 } }

/-- A zeroed descriptor bundle. -/
def vkpZero : VkH265Picture := {}

/-- A decoder in out-of-band mode that has already observed one SPS
change. -/
def oobActiveState : GstH265Dec :=
  { client := true, oob_pic_params := true, sps_update_count := 1 }

/-- A decoder in default (global-cache) mode after several observed
changes. -/
def globalCacheState : GstH265Dec :=
  { client := true
    oob_pic_params := false
    sps_update_count := 5
    pps_update_count := 5 }

/-! ## Helper lemmas -/

theorem scanNext_none_eq (lst : List (Option GstH265Picture))
    (h : (scanNext lst).1 = none) :
    (scanNext lst).2 = [] ∧ lst.filterMap id = [] := by
  induction lst with
  | nil => simp [scanNext]
  | cons hd tl ih =>
    cases hd with
    | none =>
      have h2 : (scanNext tl).1 = none := by simpa [scanNext] using h
      simpa [scanNext] using ih h2
    | some p => simp [scanNext] at h

theorem scanNext_some_eq (lst : List (Option GstH265Picture))
    (p : GstH265Picture) (h : (scanNext lst).1 = some p) :
    lst.filterMap id = p :: (scanNext lst).2.filterMap id := by
  induction lst with
  | nil => simp [scanNext] at h
  | cons hd tl ih =>
    cases hd with
    | none =>
      have h2 : (scanNext tl).1 = some p := by simpa [scanNext] using h
      simpa [scanNext] using ih h2
    | some q =>
      have hq : q = p := by simpa [scanNext] using h
      simp [scanNext, hq]

theorem classify_getElem (pocs : List Int) :
    ∀ (n : Nat) (lst : List (Option GstH265Picture)) (i : Nat),
      (classify pocs n lst)[i]? =
        if i < n then
          some (((lst.filterMap id)[i]?).bind fun p =>
            pocs.findIdx? fun q => q == p.pic_order_cnt)
        else none := by
  intro n
  induction n with
  | zero => intro lst i; simp [classify]
  | succ n ih =>
    intro lst i
    cases hsc : (scanNext lst).1 with
    | none =>
      obtain ⟨hrest, hfm⟩ := scanNext_none_eq lst hsc
      cases i with
      | zero => simp [classify, hsc, hfm]
      | succ i =>
        have h2 := ih [] i
        simp [classify, hsc, hrest, hfm, h2, Nat.succ_lt_succ_iff]
    | some p =>
      have hfm := scanNext_some_eq lst p hsc
      cases i with
      | zero => simp [classify, hsc, hfm]
      | succ i =>
        have := ih (scanNext lst).2 i
        simp [classify, hsc, hfm, this, Nat.succ_lt_succ_iff]

theorem buildRefTableAux_spec :
    ∀ (dpb : List GstH265Picture) (acc : List RefSlot),
      acc.length ≤ maxRefPics →
      buildRefTableAux dpb acc =
        if acc.length + (dpb.filter fun p => p.ref).length ≤ maxRefPics then
          some (acc ++ (dpb.filter fun p => p.ref).map mkRefSlot)
        else none := by
  intro dpb
  induction dpb with
  | nil => intro acc h; simp [buildRefTableAux, h]
  | cons p rest ih =>
    intro acc h
    by_cases hr : p.ref
    · rw [buildRefTableAux]
      simp only [hr, Bool.not_true, Bool.false_eq_true, if_false]
      by_cases hfull : maxRefPics ≤ acc.length
      · rw [if_pos hfull]
        rw [List.filter_cons_of_pos (by simp [hr])]
        have hcond : ¬ (acc.length +
            (p :: rest.filter fun p => p.ref).length ≤ maxRefPics) := by
          simp only [List.length_cons]; omega
        rw [if_neg hcond]
      · rw [if_neg hfull]
        rw [ih (acc ++ [mkRefSlot p]) (by simp; omega)]
        rw [List.filter_cons_of_pos (by simp [hr])]
        apply if_congr
        · simp; omega
        · simp
        · rfl
    · rw [buildRefTableAux]
      simp only [hr, Bool.not_false, if_true]
      rw [ih acc h, List.filter_cons_of_neg (by simp [hr])]

theorem scanl_add_concat (l : List Nat) (c : Nat) :
    ∀ a, List.scanl (· + ·) a (l ++ [c]) =
      List.scanl (· + ·) a l ++ [a + l.sum + c] := by
  induction l with
  | nil => intro a; simp [List.scanl]
  | cons x xs ih =>
    intro a
    simp [List.scanl, ih, List.sum_cons, Nat.add_assoc]

theorem scanl_add_getLastD (l : List Nat) :
    ∀ a d, (List.scanl (· + ·) a l).getLastD d = a + l.sum := by
  induction l with
  | nil => intro a d; simp [List.scanl]
  | cons x xs ih =>
    intro a d
    rw [List.scanl_cons, List.singleton_append, List.getLastD_cons, ih,
      List.sum_cons]
    omega

theorem assemble_concat (payloads : List (List Nat)) (p : List Nat) :
    assemble (payloads ++ [p]) =
      gst_h265_dec_decode_slice (assemble payloads) p := by
  simp [assemble, List.foldl_append]

theorem assemble_spec :
    ∀ payloads : List (List Nat),
      (payloads.map fun p => 3 + p.length).sum < 2 ^ 32 →
      (assemble payloads).bitstream =
        (payloads.map fun p => startCode ++ p).flatten ∧
      (assemble payloads).slice_offsets =
        List.scanl (· + ·) 0 (payloads.map fun p => 3 + p.length) ∧
      (assemble payloads).nNumSlices = payloads.length := by
  intro payloads
  induction payloads using List.reverseRecOn with
  | nil => intro _; simp [assemble, vk_pic_new, List.scanl]
  | append_singleton l p ih =>
    intro h
    have hl : (l.map fun p => 3 + p.length).sum < 2 ^ 32 := by
      simp only [List.map_append, List.sum_append, List.map_cons,
        List.map_nil, List.sum_cons, List.sum_nil] at h
      omega
    obtain ⟨hb, ho, hn⟩ := ih hl
    rw [assemble_concat]
    have hlast : (assemble l).slice_offsets.getLastD 0 =
        (l.map fun p => 3 + p.length).sum := by
      rw [ho, scanl_add_getLastD]; omega
    refine ⟨?_, ?_, ?_⟩
    · simp [gst_h265_dec_decode_slice, hb, List.flatten_concat,
        List.append_assoc]
    · simp only [gst_h265_dec_decode_slice, ho, List.map_append,
        List.map_cons, List.map_nil, startCode, List.length_cons,
        List.length_nil]
      rw [scanl_add_concat]
      congr 1
      congr 1
      rw [scanl_add_getLastD]
      have hsum : (List.map (fun p => 3 + p.length) l).sum + (3 + p.length)
          < 2 ^ 32 := by
        simp only [List.map_append, List.sum_append, List.map_cons,
          List.map_nil, List.sum_cons, List.sum_nil] at h
        omega
      rw [Nat.mod_eq_of_lt (by omega)]
      omega
    · simp [gst_h265_dec_decode_slice, hn]

theorem update_client_eq (s : GstH265Dec) (n : NalInput) (ok : Bool) :
    (gst_h265_dec_update_picture_parameters s n ok).state.client =
      s.client := by
  cases n with
  | sps v =>
    cases h : sps_cmp s.last_sps v <;>
      simp [gst_h265_dec_update_picture_parameters, h]
  | pps v =>
    cases h : pps_cmp s.last_pps v <;>
      simp [gst_h265_dec_update_picture_parameters, h]
  | vps v =>
    cases h : vps_cmp s.last_vps v <;>
      simp [gst_h265_dec_update_picture_parameters, h]
  | other => rfl

theorem update_counts_le (s : GstH265Dec) (n : NalInput) (ok : Bool) :
    s.sps_update_count ≤
      (gst_h265_dec_update_picture_parameters s n ok).state.sps_update_count ∧
    s.pps_update_count ≤
      (gst_h265_dec_update_picture_parameters s n ok).state.pps_update_count := by
  cases n with
  | sps v =>
    cases h : sps_cmp s.last_sps v
    case false =>
      simp only [gst_h265_dec_update_picture_parameters, h,
        Bool.false_eq_true, if_false]
      constructor <;> omega
    case true => simp [gst_h265_dec_update_picture_parameters, h]
  | pps v =>
    cases h : pps_cmp s.last_pps v
    case false =>
      simp only [gst_h265_dec_update_picture_parameters, h,
        Bool.false_eq_true, if_false]
      constructor <;> omega
    case true => simp [gst_h265_dec_update_picture_parameters, h]
  | vps v =>
    cases h : vps_cmp s.last_vps v <;>
      simp [gst_h265_dec_update_picture_parameters, h]
  | other => simp [gst_h265_dec_update_picture_parameters]

theorem runUpdates_counts_le (inputs : List (NalInput × Bool)) :
    ∀ s : GstH265Dec,
      s.sps_update_count ≤ (runUpdates s inputs).1.sps_update_count ∧
      s.pps_update_count ≤ (runUpdates s inputs).1.pps_update_count := by
  induction inputs with
  | nil => intro s; simp [runUpdates]
  | cons x rest ih =>
    intro s
    obtain ⟨n, ok⟩ := x
    have h1 := update_counts_le s n ok
    have h2 := ih (gst_h265_dec_update_picture_parameters s n ok).state
    simp only [runUpdates]
    constructor <;> omega

theorem update_params_not_vps (s : GstH265Dec) (n : NalInput) (ok : Bool) :
    ((gst_h265_dec_update_picture_parameters s n ok).params.all
      fun p => !(isVpsUpdate p)) = true := by
  cases n with
  | sps v =>
    cases h : sps_cmp s.last_sps v <;>
      simp [gst_h265_dec_update_picture_parameters, h, isVpsUpdate]
  | pps v =>
    cases h : pps_cmp s.last_pps v <;>
      simp [gst_h265_dec_update_picture_parameters, h, isVpsUpdate]
  | vps v =>
    cases h : vps_cmp s.last_vps v <;>
      simp [gst_h265_dec_update_picture_parameters, h]
  | other => simp [gst_h265_dec_update_picture_parameters]

theorem runUpdates_all_not_vps (inputs : List (NalInput × Bool)) :
    ∀ s : GstH265Dec,
      ((runUpdates s inputs).2.all fun p => !(isVpsUpdate p)) = true := by
  induction inputs with
  | nil => intro s; simp [runUpdates]
  | cons x rest ih =>
    intro s
    obtain ⟨n, ok⟩ := x
    have h1 := update_params_not_vps s n ok
    have h2 := ih (gst_h265_dec_update_picture_parameters s n ok).state
    simp only [runUpdates, List.all_append, Bool.and_eq_true]
    refine ⟨?_, h2⟩
    cases hA : (gst_h265_dec_update_picture_parameters s n ok).publishAttempted
    · simp
    · cases hp : (gst_h265_dec_update_picture_parameters s n ok).params with
      | none => simp [hp]
      | some p =>
        rw [hp] at h1
        simpa [hp, Option.toList] using h1

theorem runUpdates_seq_spec :
    ∀ (inputs : List (NalInput × Bool)) (s : GstH265Dec), s.client = true →
      (((runUpdates s inputs).2.filter isSpsUpdate).map
          (fun p => p.updateSequenceCount) =
        List.range' s.sps_update_count
          ((runUpdates s inputs).2.filter isSpsUpdate).length) ∧
      (((runUpdates s inputs).2.filter isPpsUpdate).map
          (fun p => p.updateSequenceCount) =
        List.range' s.pps_update_count
          ((runUpdates s inputs).2.filter isPpsUpdate).length) := by
  intro inputs
  induction inputs with
  | nil => intro s h; simp [runUpdates]
  | cons x rest ih =>
    obtain ⟨n, ok⟩ := x
    intro s h
    have hclient := update_client_eq s n ok
    cases n with
    | sps v =>
      cases hcmp : sps_cmp s.last_sps v with
      | true =>
        have := ih s (by rw [← hclient, update_client_eq]; exact h)
        simpa [runUpdates, gst_h265_dec_update_picture_parameters, hcmp]
          using this
      | false =>
        have hsc : (gst_h265_dec_update_picture_parameters s
            (NalInput.sps v) ok).state.client = true := by
          rw [update_client_eq]; exact h
        have ihr := ih _ hsc
        simp only [runUpdates]
        simp only [gst_h265_dec_update_picture_parameters, hcmp,
          Bool.false_eq_true, if_false] at ihr ⊢
        simp only [h] at ihr
        simp only [h, if_true]
        simp [isSpsUpdate, isPpsUpdate, List.filter_cons, List.range'_succ,
          ihr.1, ihr.2]
    | pps v =>
      cases hcmp : pps_cmp s.last_pps v with
      | true =>
        have := ih s h
        simpa [runUpdates, gst_h265_dec_update_picture_parameters, hcmp]
          using this
      | false =>
        have hsc : (gst_h265_dec_update_picture_parameters s
            (NalInput.pps v) ok).state.client = true := by
          rw [update_client_eq]; exact h
        have ihr := ih _ hsc
        simp only [runUpdates]
        simp only [gst_h265_dec_update_picture_parameters, hcmp,
          Bool.false_eq_true, if_false] at ihr ⊢
        simp only [h] at ihr
        simp only [h, if_true]
        simp [isSpsUpdate, isPpsUpdate, List.filter_cons, List.range'_succ,
          ihr.1, ihr.2]
    | vps v =>
      cases hcmp : vps_cmp s.last_vps v with
      | true =>
        have := ih s h
        simpa [runUpdates, gst_h265_dec_update_picture_parameters, hcmp]
          using this
      | false =>
        have := ih { s with last_vps := v } h
        simpa [runUpdates, gst_h265_dec_update_picture_parameters, hcmp]
          using this
    | other =>
      have := ih s h
      simpa [runUpdates, gst_h265_dec_update_picture_parameters] using this

theorem sps_cmp_set_vui (a : GstH265SPS) (v : GstH265VUIParams) :
    sps_cmp a { a with vui_params := v } = true := by
  simp [sps_cmp]

/-! ## Claims -/

/-- C1: classification index resolution.  For each of the three
classification lists (before, after, long_term) and every output slot i
ranging over the size of the reference table, the resolver consumes the list
forward from where the previous iteration stopped, skipping null entries, and
writes the index of the first reference-table slot whose POC equals the taken
picture's POC; on scan exhaustion or no POC match the slot stays unset.  For
table POCs [10, 20, 30] and before list [null, POC 20, null], exactly one
entry resolves, to the slot index of POC 20. -/
theorem classification_idx_resolution :
    (∀ (table : List RefSlot)
        (before after long_term : List (Option GstH265Picture)) (i : Nat),
        ((startPictureClassification table before after long_term).1[i]? =
          if i < table.length then
            some (((before.filterMap id)[i]?).bind fun p =>
              (table.map fun r => r.poc).findIdx?
                fun q => q == p.pic_order_cnt)
          else none) ∧
        ((startPictureClassification table before after long_term).2.1[i]? =
          if i < table.length then
            some (((after.filterMap id)[i]?).bind fun p =>
              (table.map fun r => r.poc).findIdx?
                fun q => q == p.pic_order_cnt)
          else none) ∧
        ((startPictureClassification table before after long_term).2.2[i]? =
          if i < table.length then
            some (((long_term.filterMap id)[i]?).bind fun p =>
              (table.map fun r => r.poc).findIdx?
                fun q => q == p.pic_order_cnt)
          else none)) ∧
    resolveClassificationIdx exampleTable exampleBefore =
      [some 1, none, none] ∧
    (resolveClassificationIdx exampleTable exampleBefore).filterMap id =
      [1] ∧
    (exampleTable.map fun r => r.poc)[1]? = some 20 := by
  refine ⟨?_, by decide, by decide, by decide⟩
  intro table before after long_term i
  exact ⟨classify_getElem _ table.length before i,
    classify_getElem _ table.length after i,
    classify_getElem _ table.length long_term i⟩

/-- C2: reference table construction.  The table holds exactly the pictures
marked as reference, in DPB scan order, each slot carrying the handle, POC
and long-term flag at index = running count; construction fails with the
picture-level overflow error exactly when the qualifying pictures exceed the
16-slot capacity: 3 references out of 5 DPB pictures give a 3-slot table with
no error, 17 references give the error. -/
theorem reference_table_construction :
    (∀ dpb : List GstH265Picture,
        buildRefTable dpb =
          if (dpb.filter fun p => p.ref).length ≤ maxRefPics then
            some ((dpb.filter fun p => p.ref).map mkRefSlot)
          else none) ∧
    buildRefTable exampleDpb5 =
      some [{ pic := 1, poc := 10, is_long_term := false },
            { pic := 3, poc := 20, is_long_term := false },
            { pic := 5, poc := 30, is_long_term := false }] ∧
    buildRefTable (List.replicate 17 refPic) = none := by
  refine ⟨?_, by decide, by decide⟩
  intro dpb
  have h := buildRefTableAux_spec dpb [] (by simp [maxRefPics])
  simpa [buildRefTable] using h

/-- C3: for every parameter-set record (SPS, PPS or VPS) equal on the
compared field subset to the cached record of the same kind, observe returns
nothing, publishes nothing, and leaves the whole cache state (last_value and
update_sequence) unchanged. -/
theorem observe_equal_noop :
    (∀ (s : GstH265Dec) (v : GstH265SPS) (ok : Bool),
        sps_cmp s.last_sps v = true →
        gst_h265_dec_update_picture_parameters s (NalInput.sps v) ok =
          { state := s, params := none, publishAttempted := false, publishFailed := false }) ∧
    (∀ (s : GstH265Dec) (v : GstH265PPS) (ok : Bool),
        pps_cmp s.last_pps v = true →
        gst_h265_dec_update_picture_parameters s (NalInput.pps v) ok =
          { state := s, params := none, publishAttempted := false, publishFailed := false }) ∧
    (∀ (s : GstH265Dec) (v : GstH265VPS) (ok : Bool),
        vps_cmp s.last_vps v = true →
        gst_h265_dec_update_picture_parameters s (NalInput.vps v) ok =
          { state := s, params := none, publishAttempted := false, publishFailed := false }) := by
  refine ⟨?_, ?_, ?_⟩ <;> intro s v ok h <;>
    simp [gst_h265_dec_update_picture_parameters, h]

/-- Witness for C3: the freshly constructed decoder caches the
zero-initialised SPS, so observing a zero SPS is a no-op. -/
theorem observe_equal_noop_witness :
    sps_cmp (gst_h265_dec_init true false).last_sps ({} : GstH265SPS) = true ∧
    gst_h265_dec_update_picture_parameters (gst_h265_dec_init true false)
        (NalInput.sps {}) true =
      { state := gst_h265_dec_init true false
        params := none
        publishAttempted := false
        publishFailed := false } :=
  ⟨by decide,
   observe_equal_noop.1 (gst_h265_dec_init true false) {} true (by decide)⟩

/-- C4: for every SPS or PPS record that differs on the compared subset from
the cached one, observe stores the record as last_value, produces a
descriptor, and increments that kind's update_sequence by exactly 1; across
any sequence of observe operations the per-kind counters never decrease. -/
theorem observe_change_increments :
    (∀ (s : GstH265Dec) (v : GstH265SPS) (ok : Bool),
        sps_cmp s.last_sps v = false →
        (gst_h265_dec_update_picture_parameters s (NalInput.sps v)
            ok).state.sps_update_count = s.sps_update_count + 1 ∧
        (gst_h265_dec_update_picture_parameters s (NalInput.sps v)
            ok).state.last_sps = v ∧
        (gst_h265_dec_update_picture_parameters s (NalInput.sps v)
            ok).params.isSome = true) ∧
    (∀ (s : GstH265Dec) (v : GstH265PPS) (ok : Bool),
        pps_cmp s.last_pps v = false →
        (gst_h265_dec_update_picture_parameters s (NalInput.pps v)
            ok).state.pps_update_count = s.pps_update_count + 1 ∧
        (gst_h265_dec_update_picture_parameters s (NalInput.pps v)
            ok).state.last_pps = v ∧
        (gst_h265_dec_update_picture_parameters s (NalInput.pps v)
            ok).params.isSome = true) ∧
    (∀ (s : GstH265Dec) (inputs : List (NalInput × Bool)),
        s.sps_update_count ≤ (runUpdates s inputs).1.sps_update_count ∧
        s.pps_update_count ≤ (runUpdates s inputs).1.pps_update_count) := by
  refine ⟨?_, ?_, ?_⟩
  · intro s v ok h; simp [gst_h265_dec_update_picture_parameters, h]
  · intro s v ok h; simp [gst_h265_dec_update_picture_parameters, h]
  · intro s inputs; exact runUpdates_counts_le inputs s

/-- Witness for C4: an SPS with id 1 differs from the zeroed cache and bumps
the counter from 0 to 1. -/
theorem observe_change_increments_witness :
    sps_cmp (gst_h265_dec_init true false).last_sps spsOne = false ∧
    ((gst_h265_dec_update_picture_parameters (gst_h265_dec_init true false)
        (NalInput.sps spsOne) true).state.sps_update_count =
      (gst_h265_dec_init true false).sps_update_count + 1 ∧
     (gst_h265_dec_update_picture_parameters (gst_h265_dec_init true false)
        (NalInput.sps spsOne) true).state.last_sps = spsOne ∧
     (gst_h265_dec_update_picture_parameters (gst_h265_dec_init true false)
        (NalInput.sps spsOne) true).params.isSome = true) :=
  ⟨by decide,
   observe_change_increments.1 (gst_h265_dec_init true false) spsOne true
     (by decide)⟩

/-- C5: a VPS record never produces a publish event, whatever its content
and whatever the cache holds: the single step never attempts a VPS publish,
and no run of the cache ever emits a VPS-tagged update to the backend. -/
theorem vps_never_published :
    (∀ (s : GstH265Dec) (v : GstH265VPS) (ok : Bool),
        (gst_h265_dec_update_picture_parameters s (NalInput.vps v)
          ok).params = none ∧
        (gst_h265_dec_update_picture_parameters s (NalInput.vps v)
          ok).publishAttempted = false) ∧
    (∀ (s : GstH265Dec) (inputs : List (NalInput × Bool)),
        ((runUpdates s inputs).2.all fun p => !(isVpsUpdate p)) = true) := by
  refine ⟨?_, ?_⟩
  · intro s v ok
    cases h : vps_cmp s.last_vps v <;>
      simp [gst_h265_dec_update_picture_parameters, h]
  · intro s inputs; exact runUpdates_all_not_vps inputs s

/-- C6: the bitstream assembler.  On a fresh session, appending payloads of
lengths l1..ln yields the cumulative offsets [0, 3+l1, 3+l1+3+l2, ...] (each
slice prefixed by the 3-byte start code 00 00 01), slice count n, and final
offset equal to the total buffer length; zero appends give offsets [0], count
0 and an empty buffer, and lengths [5, 7] give offsets [0, 8, 18], count
2. -/
theorem assembler_offsets :
    (∀ payloads : List (List Nat),
        (payloads.map fun p => 3 + p.length).sum < 2 ^ 32 →
        (assemble payloads).slice_offsets =
          List.scanl (· + ·) 0 (payloads.map fun p => 3 + p.length) ∧
        (assemble payloads).nNumSlices = payloads.length ∧
        (assemble payloads).bitstream =
          (payloads.map fun p => startCode ++ p).flatten ∧
        (assemble payloads).slice_offsets.getLastD 0 =
          (assemble payloads).bitstream.length) ∧
    ((assemble []).slice_offsets = [0] ∧ (assemble []).nNumSlices = 0 ∧
      (assemble []).bitstream = []) ∧
    ((assemble [payloadFive, payloadSeven]).slice_offsets = [0, 8, 18] ∧
      (assemble [payloadFive, payloadSeven]).nNumSlices = 2) := by
  refine ⟨?_, by decide, by decide⟩
  intro payloads h
  obtain ⟨hb, ho, hn⟩ := assemble_spec payloads h
  refine ⟨ho, hn, hb, ?_⟩
  have hmap : (payloads.map fun p => startCode ++ p).map List.length =
      payloads.map fun p => 3 + p.length := by
    rw [List.map_map]
    refine List.map_congr_left ?_
    intro a _
    simp only [Function.comp_apply, startCode, List.length_append,
      List.length_cons, List.length_nil]
  rw [ho, hb, scanl_add_getLastD, List.length_flatten, hmap]
  omega

/-- Witness for C6: the [5, 7] payload pair satisfies the no-overflow bound
and the characterization. -/
theorem assembler_offsets_witness :
    (([payloadFive, payloadSeven].map fun p => 3 + p.length).sum < 2 ^ 32) ∧
    ((assemble [payloadFive, payloadSeven]).slice_offsets =
      List.scanl (· + ·) 0
        ([payloadFive, payloadSeven].map fun p => 3 + p.length) ∧
     (assemble [payloadFive, payloadSeven]).nNumSlices =
      [payloadFive, payloadSeven].length ∧
     (assemble [payloadFive, payloadSeven]).bitstream =
      ([payloadFive, payloadSeven].map fun p => startCode ++ p).flatten ∧
     (assemble [payloadFive, payloadSeven]).slice_offsets.getLastD 0 =
      (assemble [payloadFive, payloadSeven]).bitstream.length) :=
  ⟨by decide, assembler_offsets.1 [payloadFive, payloadSeven] (by decide)⟩

/-- C7 counterexample: with oob_pic_params set and one SPS change already
observed, start_picture does NOT re-derive the descriptors into the
picture's session (it uses the shared cache), while in default mode (the
claim's global-cache mode) it DOES fill per picture — the claim has the two
modes swapped. -/
theorem oob_mode_claim_counterexample :
    oobActiveState.oob_pic_params = true ∧
    startPictureFillsPerPicture oobActiveState = false ∧
    globalCacheState.oob_pic_params = false ∧
    globalCacheState.sps_update_count ≠ 0 ∧
    startPictureFillsPerPicture globalCacheState = true := by decide

/-- C7 amended: start_picture derives the SPS/PPS descriptors fresh into the
picture's own session exactly when oob_pic_params is NOT set, or when no SPS
change has been observed yet (sps_update_count = 0, which the source tests
twice; pps_update_count is never consulted); with oob_pic_params set and at
least one SPS update observed, the shared cache's descriptors are used. -/
theorem oob_mode_fill_condition (s : GstH265Dec) :
    startPictureFillsPerPicture s =
      (!s.oob_pic_params || s.sps_update_count == 0) := by
  simp [startPictureFillsPerPicture, Bool.and_self]

/-- C8: when an accepted SPS or PPS change is published, the cache commit
(last_value, rebuilt descriptor, incremented counter) happens before the
publish call and does not depend on the publish outcome: the state is
identical whether the publish succeeds or fails, the publish is attempted
exactly when a client is attached, and a failure is only logged. -/
theorem publish_failure_no_rollback :
    (∀ (s : GstH265Dec) (v : GstH265SPS) (ok : Bool),
        sps_cmp s.last_sps v = false →
        (gst_h265_dec_update_picture_parameters s (NalInput.sps v)
            ok).state =
          (gst_h265_dec_update_picture_parameters s (NalInput.sps v)
            true).state ∧
        (gst_h265_dec_update_picture_parameters s (NalInput.sps v)
            ok).state.last_sps = v ∧
        (gst_h265_dec_update_picture_parameters s (NalInput.sps v)
            ok).state.vkp = fill_sps v s.vkp ∧
        (gst_h265_dec_update_picture_parameters s (NalInput.sps v)
            ok).state.sps_update_count = s.sps_update_count + 1 ∧
        (gst_h265_dec_update_picture_parameters s (NalInput.sps v)
            ok).publishAttempted = s.client ∧
        (gst_h265_dec_update_picture_parameters s (NalInput.sps v)
            ok).publishFailed = (s.client && !ok)) ∧
    (∀ (s : GstH265Dec) (v : GstH265PPS) (ok : Bool),
        pps_cmp s.last_pps v = false →
        (gst_h265_dec_update_picture_parameters s (NalInput.pps v)
            ok).state =
          (gst_h265_dec_update_picture_parameters s (NalInput.pps v)
            true).state ∧
        (gst_h265_dec_update_picture_parameters s (NalInput.pps v)
            ok).state.last_pps = v ∧
        (gst_h265_dec_update_picture_parameters s (NalInput.pps v)
            ok).state.vkp = fill_pps v s.vkp ∧
        (gst_h265_dec_update_picture_parameters s (NalInput.pps v)
            ok).state.pps_update_count = s.pps_update_count + 1 ∧
        (gst_h265_dec_update_picture_parameters s (NalInput.pps v)
            ok).publishAttempted = s.client ∧
        (gst_h265_dec_update_picture_parameters s (NalInput.pps v)
            ok).publishFailed = (s.client && !ok)) := by
  refine ⟨?_, ?_⟩ <;> intro s v ok h <;>
    simp [gst_h265_dec_update_picture_parameters, h]

/-- Witness for C8: a failed publish of the id-1 SPS commits exactly the
state a successful publish would. -/
theorem publish_failure_no_rollback_witness :
    sps_cmp (gst_h265_dec_init true false).last_sps spsOne = false ∧
    ((gst_h265_dec_update_picture_parameters (gst_h265_dec_init true false)
        (NalInput.sps spsOne) false).state =
      (gst_h265_dec_update_picture_parameters (gst_h265_dec_init true false)
        (NalInput.sps spsOne) true).state ∧
     (gst_h265_dec_update_picture_parameters (gst_h265_dec_init true false)
        (NalInput.sps spsOne) false).state.last_sps = spsOne ∧
     (gst_h265_dec_update_picture_parameters (gst_h265_dec_init true false)
        (NalInput.sps spsOne) false).state.vkp =
      fill_sps spsOne (gst_h265_dec_init true false).vkp ∧
     (gst_h265_dec_update_picture_parameters (gst_h265_dec_init true false)
        (NalInput.sps spsOne) false).state.sps_update_count =
      (gst_h265_dec_init true false).sps_update_count + 1 ∧
     (gst_h265_dec_update_picture_parameters (gst_h265_dec_init true false)
        (NalInput.sps spsOne) false).publishAttempted =
      (gst_h265_dec_init true false).client ∧
     (gst_h265_dec_update_picture_parameters (gst_h265_dec_init true false)
        (NalInput.sps spsOne) false).publishFailed =
      ((gst_h265_dec_init true false).client && !false)) :=
  ⟨by decide,
   publish_failure_no_rollback.1 (gst_h265_dec_init true false) spsOne false
     (by decide)⟩

/-- C9: two SPS records that differ only in the contents of the VUI
sub-structure (presence flag equal) compare equal under sps_cmp, so observe
returns nothing and republishes nothing — even though fill_sps copies the
VUI fields into the descriptor when the flag is set (witnessed by sar_width
on a concrete pair with the flag set). -/
theorem vui_only_change_not_republished :
    (∀ (s : GstH265Dec) (v : GstH265VUIParams) (ok : Bool),
        sps_cmp s.last_sps { s.last_sps with vui_params := v } = true ∧
        gst_h265_dec_update_picture_parameters s
            (NalInput.sps { s.last_sps with vui_params := v }) ok =
          { state := s, params := none, publishAttempted := false, publishFailed := false }) ∧
    sps_cmp spsVuiA spsVuiB = true ∧
    spsVuiA.vui_parameters_present_flag ≠ 0 ∧
    spsVuiA.vui_parameters_present_flag = spsVuiB.vui_parameters_present_flag ∧
    (fill_sps spsVuiA vkpZero).vui.sar_width ≠
      (fill_sps spsVuiB vkpZero).vui.sar_width := by
  refine ⟨?_, by decide, by decide, by decide, by decide⟩
  intro s v ok
  have h := sps_cmp_set_vui s.last_sps v
  exact ⟨h, by simp [gst_h265_dec_update_picture_parameters, h]⟩

/-- C10: a published SPS or PPS descriptor carries the per-kind counter
value from before the increment: a single step tags the event with the old
counter, and in every run from the fresh decoder the k-th published update
of each kind carries sequence number k-1 (the sequence of emitted numbers is
0, 1, 2, ...). -/
theorem published_sequence_numbers :
    (∀ inputs : List (NalInput × Bool),
        (((runUpdates (gst_h265_dec_init true false) inputs).2.filter
            isSpsUpdate).map (fun p => p.updateSequenceCount) =
          List.range ((runUpdates (gst_h265_dec_init true false) inputs).2.filter
            isSpsUpdate).length) ∧
        (((runUpdates (gst_h265_dec_init true false) inputs).2.filter
            isPpsUpdate).map (fun p => p.updateSequenceCount) =
          List.range ((runUpdates (gst_h265_dec_init true false) inputs).2.filter
            isPpsUpdate).length)) ∧
    (∀ (s : GstH265Dec) (v : GstH265SPS) (ok : Bool),
        ((gst_h265_dec_update_picture_parameters s (NalInput.sps v)
            ok).params.all
          fun p => p.updateSequenceCount == s.sps_update_count) = true) ∧
    (∀ (s : GstH265Dec) (v : GstH265PPS) (ok : Bool),
        ((gst_h265_dec_update_picture_parameters s (NalInput.pps v)
            ok).params.all
          fun p => p.updateSequenceCount == s.pps_update_count) = true) := by
  refine ⟨?_, ?_, ?_⟩
  · intro inputs
    have h := runUpdates_seq_spec inputs (gst_h265_dec_init true false) rfl
    simpa [gst_h265_dec_init, List.range_eq_range'] using h
  · intro s v ok
    cases h : sps_cmp s.last_sps v <;>
      simp [gst_h265_dec_update_picture_parameters, h]
  · intro s v ok
    cases h : pps_cmp s.last_pps v <;>
      simp [gst_h265_dec_update_picture_parameters, h]
